import Mathlib

/-!
Shallow embedding of the NVM programming core of the UPDI4AVR firmware
(`src/libraries/UPDI4AVR/examples/UPDI4AVR_FW634B/src/NVM.cpp`).

The low-level UPDI wire transport is external to this file's source; it is
modelled as an oracle that decides, per transport call, the value returned
by a load and the success of a store.  Every transport call is recorded in
an event trace, so that ordering and "no transport command issued"
properties become statements about the trace.  The busy-wait loops of the
source (which poll a status register with no timeout) are given an explicit
fuel parameter; `none` models divergence of the wait loop.  Machine
integers are modelled as `Nat` with explicit `% 2^w` where the C code
truncates (`uint8_t`, `uint16_t` on AVR where `size_t` is 16-bit,
`uint32_t`).
-/

/-- Transport events observable on the UPDI wire: single-byte load/store,
block stores (plain, repeat-store-data, 16-bit-addressed), block loads, and
the external user-row writer.  Mirrors the `UPDI::*` primitives consumed by
`NVM.cpp`. -/
inductive Event where
  | ld8 (addr : Nat)
  | st8 (addr val : Nat)
  | sts8 (addr : Nat) (data : List Nat)
  | sts8rsd (addr : Nat) (data : List Nat)
  | sts16rsd (addr : Nat) (data : List Nat)
  | lds8 (addr n : Nat)
  | lds16 (addr n : Nat)
  | userrow (addr n : Nat)
  deriving DecidableEq, Repr

/-- Target descriptor `JTAG2::updi_desc`: cached flash page size, the
signature-read base offset, the cached 3-byte signature, and the 32-byte
system information block (SIB). -/
structure Desc where
  flash_page_size : Nat
  nvm_signature_offset : Nat
  signature : List Nat
  sib : List Nat
  deriving DecidableEq, Repr

/-- Machine state threaded through the embedding: the transport event trace,
a transport call counter `k` (index into the oracle), the protocol response
code last set via `set_response`, the response message id and size word,
the response data bytes, and the target descriptor. -/
structure MState where
  trace : List Event
  k : Nat
  resp : Nat
  msgid : Nat
  size_word : Nat
  out : List Nat
  desc : Desc
  deriving DecidableEq, Repr

/-- Oracle fixing the outcome of each transport call: `ldVal k a` is the
byte a single-byte load at address `a` returns on call number `k`;
`stOk k` is whether the `k`-th call, if a store, succeeds; `blkOk k` and
`blkVal k j` are the success and returned bytes of a block load. -/
structure Oracle where
  ldVal : Nat → Nat → Nat
  stOk : Nat → Bool
  blkOk : Nat → Bool
  blkVal : Nat → Nat → Nat

/-- Record one transport event and advance the oracle index. -/
def push (e : Event) (s : MState) : MState :=
  { s with trace := s.trace ++ [e], k := s.k + 1 }

/-- Transport primitive `UPDI::ld8`: single byte load. -/
def updi_ld8 (o : Oracle) (a : Nat) (s : MState) : Nat × MState :=
  (o.ldVal s.k a % 256, push (Event.ld8 a) s)

/-- Transport primitive `UPDI::st8`: single byte store. -/
def updi_st8 (o : Oracle) (a v : Nat) (s : MState) : Bool × MState :=
  (o.stOk s.k, push (Event.st8 a (v % 256)) s)

/-- Transport primitive `UPDI::sts8`: block store. -/
def updi_sts8 (o : Oracle) (a : Nat) (d : List Nat) (s : MState) : Bool × MState :=
  (o.stOk s.k, push (Event.sts8 a (d.map (fun x => x % 256))) s)

/-- Transport primitive `UPDI::sts8rsd`: block store with repeat-store-data. -/
def updi_sts8rsd (o : Oracle) (a : Nat) (d : List Nat) (s : MState) : Bool × MState :=
  (o.stOk s.k, push (Event.sts8rsd a (d.map (fun x => x % 256))) s)

/-- Transport primitive `UPDI::sts16rsd`: 16-bit-addressed bulk store. -/
def updi_sts16rsd (o : Oracle) (a : Nat) (d : List Nat) (s : MState) : Bool × MState :=
  (o.stOk s.k, push (Event.sts16rsd a (d.map (fun x => x % 256))) s)

/-- Transport primitive `UPDI::lds8`: block load of `n` bytes. -/
def updi_lds8 (o : Oracle) (a n : Nat) (s : MState) : Bool × List Nat × MState :=
  (o.blkOk s.k, (List.range n).map (fun j => o.blkVal s.k j % 256), push (Event.lds8 a n) s)

/-- Transport primitive `UPDI::lds16`: 16-bit-addressed bulk load. -/
def updi_lds16 (o : Oracle) (a n : Nat) (s : MState) : Bool × List Nat × MState :=
  (o.blkOk s.k, (List.range n).map (fun j => o.blkVal s.k j % 256), push (Event.lds16 a n) s)

/-- Transport primitive `UPDI::write_userrow`: the dedicated locked-device
user-row writer (implemented outside this file's source). -/
def updi_write_userrow (o : Oracle) (a n : Nat) (s : MState) : Bool × MState :=
  (o.stOk s.k, push (Event.userrow a n) s)

/-- Register address `NVMCTRL_REG_CTRLA` (from the vendor header, not in
`src/`; only distinctness of the addresses matters to the claims). -/
def NVMCTRL_REG_CTRLA : Nat := 0x1000

/-- Register address `NVMCTRL_REG_STATUS` for NVMCTRL generations 0/2/4. -/
def NVMCTRL_REG_STATUS : Nat := 0x1002

/-- Register address `NVMCTRL_REG_DATA` (generation-0 fuse data register). -/
def NVMCTRL_REG_DATA : Nat := 0x1006

/-- Register address `NVMCTRL_V3_REG_STATUS` for NVMCTRL generations 3/5. -/
def NVMCTRL_V3_REG_STATUS : Nat := 0x1008

/-- Command opcode `NVM_CMD_NOCMD` (no command / clear). -/
def NVM_CMD_NOCMD : Nat := 0x00

/-- Command opcode `NVM_CMD_ERWP` (gen-0 erase-and-write-page commit). -/
def NVM_CMD_ERWP : Nat := 0x03

/-- Command opcode `NVM_CMD_PBC` (gen-0 page buffer clear). -/
def NVM_CMD_PBC : Nat := 0x04

/-- Command opcode `NVM_CMD_WFU` (gen-0 write fuse). -/
def NVM_CMD_WFU : Nat := 0x07

/-- Command opcode `NVM_V2_CMD_NOCMD` (gen-2/4 no command). -/
def NVM_V2_CMD_NOCMD : Nat := 0x00

/-- Command opcode `NVM_V2_CMD_FLWR` (gen-2/4 flash write arm). -/
def NVM_V2_CMD_FLWR : Nat := 0x02

/-- Command opcode `NVM_V2_CMD_FLPER` (gen-2/4 flash page erase). -/
def NVM_V2_CMD_FLPER : Nat := 0x08

/-- Command opcode `NVM_V2_CMD_EEERWR` (gen-2/4 EEPROM erase-write arm). -/
def NVM_V2_CMD_EEERWR : Nat := 0x13

/-- Command opcode `NVM_V3_CMD_FLPW` (gen-3/5 flash page write commit). -/
def NVM_V3_CMD_FLPW : Nat := 0x04

/-- Command opcode `NVM_V3_CMD_FLPER` (gen-3/5 flash page erase). -/
def NVM_V3_CMD_FLPER : Nat := 0x08

/-- Command opcode `NVM_V3_CMD_FLPBCLR` (gen-3/5 flash page buffer clear). -/
def NVM_V3_CMD_FLPBCLR : Nat := 0x0F

/-- Command opcode `NVM_V3_CMD_EEPERW` (gen-3/5 EEPROM page erase-write). -/
def NVM_V3_CMD_EEPERW : Nat := 0x15

/-- Command opcode `NVM_V3_CMD_EEPBCLR` (gen-3/5 EEPROM page buffer clear). -/
def NVM_V3_CMD_EEPBCLR : Nat := 0x1F

/-- Memory type token `MTYPE_SRAM` (value from the source comments). -/
def MTYPE_SRAM : Nat := 0x20

/-- Memory type token `MTYPE_EEPROM`. -/
def MTYPE_EEPROM : Nat := 0x22

/-- Memory type token `MTYPE_FLASH_PAGE`. -/
def MTYPE_FLASH_PAGE : Nat := 0xB0

/-- Memory type token `MTYPE_EEPROM_PAGE`. -/
def MTYPE_EEPROM_PAGE : Nat := 0xB1

/-- Memory type token `MTYPE_FUSE_BITS`. -/
def MTYPE_FUSE_BITS : Nat := 0xB2

/-- Memory type token `MTYPE_LOCK_BITS`. -/
def MTYPE_LOCK_BITS : Nat := 0xB3

/-- Memory type token `MTYPE_SIGN_JTAG` (signature read; value from the
JTAGICE mkII protocol, the header is not in `src/`). -/
def MTYPE_SIGN_JTAG : Nat := 0xB4

/-- Memory type token `MTYPE_XMEGA_APP_FLASH`. -/
def MTYPE_XMEGA_APP_FLASH : Nat := 0xC0

/-- Memory type token `MTYPE_XMEGA_BOOT_FLASH`. -/
def MTYPE_XMEGA_BOOT_FLASH : Nat := 0xC1

/-- Memory type token `MTYPE_XMEGA_EEPROM`. -/
def MTYPE_XMEGA_EEPROM : Nat := 0xC4

/-- Memory type token `MTYPE_XMEGA_USERSIG` (user row). -/
def MTYPE_XMEGA_USERSIG : Nat := 0xC5

/-- Response code `RSP_OK`. Modelled from the spec: the response-code
taxonomy belongs to the external protocol layer (header not in `src/`);
the values are the standard distinct codes of that protocol. -/
def RSP_OK : Nat := 0x80

/-- Response code `RSP_MEMORY` (success with data payload). -/
def RSP_MEMORY : Nat := 0x82

/-- Response code `RSP_ILLEGAL_MEMORY_TYPE`. -/
def RSP_ILLEGAL_MEMORY_TYPE : Nat := 0xA2

/-- Response code `RSP_ILLEGAL_MEMORY_RANGE`. -/
def RSP_ILLEGAL_MEMORY_RANGE : Nat := 0xA3

/-- Response code `RSP_NO_TARGET_POWER` (repurposed by this firmware as the
flash page-size-mismatch rejection). -/
def RSP_NO_TARGET_POWER : Nat := 0xAB

/-- Session flags: `UPDI_CONTROL` bits (program mode, info/locked mode,
erase-flash-mode `ERFM`) and `UPDI_NVMCTRL` generation capability bits
(Gen2, Gen3, Gen5), as consumed by `NVM.cpp`. -/
structure Ctrl where
  prog : Bool
  info : Bool
  erfm : Bool
  gen2 : Bool
  gen3 : Bool
  gen5 : Bool
  deriving DecidableEq, Repr

/-- Protocol response setter `JTAG2::set_response`. Modelled from the spec:
the protocol layer's implementation is not in `src/`; the spec describes it
as writing a result code into the shared response buffer. -/
def set_response (r : Nat) (s : MState) : MState :=
  { s with resp := r }

/-- Busy-wait loop shared by `nvm_wait` and `nvm_wait_v3`, polling the given
status register while its two low bits are set, with explicit fuel; `none`
models the (intentional) divergence of the untimed C loop.  Returns the
last status byte read (`UPDI_LASTL`). -/
def nvm_waitR (o : Oracle) (reg : Nat) : Nat → MState → Option (Nat × MState)
  | 0, s =>
    let p := updi_ld8 o reg s
    if p.1 % 4 = 0 then some p else none
  | f + 1, s =>
    let p := updi_ld8 o reg s
    if p.1 % 4 = 0 then some p else nvm_waitR o reg f p.2

/-- Status wait for NVMCTRL generations 0/2/4 (`nvm_wait`). -/
def nvm_wait (o : Oracle) (fuel : Nat) (s : MState) : Option (Nat × MState) :=
  nvm_waitR o NVMCTRL_REG_STATUS fuel s

/-- Status wait for NVMCTRL generations 3/5 (`nvm_wait_v3`). -/
def nvm_wait_v3 (o : Oracle) (fuel : Nat) (s : MState) : Option (Nat × MState) :=
  nvm_waitR o NVMCTRL_V3_REG_STATUS fuel s

/-- Command write `nvm_ctrl`: store the opcode to `NVMCTRL_REG_CTRLA`. -/
def nvm_ctrl (o : Oracle) (nvmcmd : Nat) (s : MState) : Bool × MState :=
  updi_st8 o NVMCTRL_REG_CTRLA nvmcmd s

/-- Command change `nvm_ctrl_change`: read the control register; if it
already holds the requested opcode, succeed without writing; otherwise
clear to `NVM_CMD_NOCMD` and, if the request is not itself `NOCMD`, write
it. -/
def nvm_ctrl_change (o : Oracle) (nvmcmd : Nat) (s : MState) : Bool × MState :=
  let p := updi_ld8 o NVMCTRL_REG_CTRLA s
  if p.1 = nvmcmd % 256 then (true, p.2)
  else
    let q := nvm_ctrl o NVM_CMD_NOCMD p.2
    if q.1 = false then (false, q.2)
    else if NVM_CMD_NOCMD ≠ nvmcmd % 256 then nvm_ctrl o nvmcmd q.2
    else (true, q.2)

/-- `nvm_ctrl_v2`: wait for idle (gen 0/2/4 status), then change command. -/
def nvm_ctrl_v2 (o : Oracle) (fuel nvmcmd : Nat) (s : MState) : Option (Bool × MState) :=
  match nvm_wait o fuel s with
  | none => none
  | some p => some (nvm_ctrl_change o nvmcmd p.2)

/-- `nvm_ctrl_v3`: wait for idle (gen 3/5 status), then change command. -/
def nvm_ctrl_v3 (o : Oracle) (fuel nvmcmd : Nat) (s : MState) : Option (Bool × MState) :=
  match nvm_wait_v3 o fuel s with
  | none => none
  | some p => some (nvm_ctrl_change o nvmcmd p.2)

/-- Little-endian byte image of the gen-0 `fuse_packet_t` struct
`{ uint16_t data; uint16_t addr }` with the data byte zero-extended. -/
def fuse_packet (addr data : Nat) : List Nat :=
  [data % 256, 0, addr % 256, addr / 256 % 256]

/-- Generation-0 fuse writer `write_fuse`: wait, block-store the packed
4-byte `{data, addr}` record to the controller data register, issue `WFU`,
and succeed iff the low 3 bits of the final waited status are zero. -/
def write_fuse (o : Oracle) (fuel : Nat) (addr data : Nat) (s : MState) :
    Option (Bool × MState) :=
  match nvm_wait o fuel s with
  | none => none
  | some p =>
    let q := updi_sts8 o NVMCTRL_REG_DATA (fuse_packet addr data) p.2
    if q.1 = false then some (false, q.2)
    else
      let r := nvm_ctrl o NVM_CMD_WFU q.2
      if r.1 = false then some (false, r.2)
      else match nvm_wait o fuel r.2 with
        | none => none
        | some w => some ((w.1 % 8 = 0 : Bool), w.2)

/-- Truncated decrement on a 16-bit counter: the value of `n - 1` computed
in `uint16_t` (AVR `size_t`), wrapping `0` to `65535`. -/
def u16dec (n : Nat) : Nat := (n + 65535) % 65536

/-- The C idiom `(byte_count - 1) >> 8` evaluated in 16-bit arithmetic,
used to select the 16-bit-addressed bulk primitive for counts above 256. -/
def dec1_shr8 (n : Nat) : Nat := u16dec n / 256

/-- Gen-3/5 EEPROM writer `write_eeprom_v3`: ceiling 8 bytes; clear the
page buffer (`EEPBCLR`), load (single byte or block), commit (`EEPERW`). -/
def write_eeprom_v3 (o : Oracle) (start_addr : Nat) (data : List Nat) (byte_count : Nat)
    (s : MState) : Bool × MState :=
  if byte_count > 8 then (true, set_response RSP_ILLEGAL_MEMORY_RANGE s)
  else
    let p := nvm_ctrl o NVM_V3_CMD_EEPBCLR s
    if p.1 = false then (false, p.2)
    else
      let s2 := if byte_count = 1 then (updi_st8 o start_addr (data.headD 0) p.2).2
                else (updi_sts8 o start_addr (data.take byte_count) p.2).2
      nvm_ctrl o NVM_V3_CMD_EEPERW s2

/-- Gen-2/4 EEPROM writer `write_eeprom_v2`: ceiling 2 bytes; arm
(`EEERWR`), load, commit with `NOCMD`. -/
def write_eeprom_v2 (o : Oracle) (fuel start_addr : Nat) (data : List Nat) (byte_count : Nat)
    (s : MState) : Option (Bool × MState) :=
  if byte_count > 2 then some (true, set_response RSP_ILLEGAL_MEMORY_RANGE s)
  else
    match nvm_ctrl_v2 o fuel NVM_V2_CMD_EEERWR s with
    | none => none
    | some (false, s1) => some (false, s1)
    | some (true, s1) =>
      let s2 := if byte_count = 1 then (updi_st8 o start_addr (data.headD 0) s1).2
                else (updi_sts8 o start_addr (data.take byte_count) s1).2
      nvm_ctrl_v2 o fuel NVM_V2_CMD_NOCMD s2

/-- Gen-0 EEPROM writer `write_eeprom_v0`: ceiling 64 bytes; wait, load
(single byte or repeat-store-data block), commit (`ERWP`). -/
def write_eeprom_v0 (o : Oracle) (fuel start_addr : Nat) (data : List Nat) (byte_count : Nat)
    (s : MState) : Option (Bool × MState) :=
  if byte_count > 64 then some (true, set_response RSP_ILLEGAL_MEMORY_RANGE s)
  else
    match nvm_wait o fuel s with
    | none => none
    | some p =>
      let s2 := if byte_count = 1 then (updi_st8 o start_addr (data.headD 0) p.2).2
                else (updi_sts8rsd o start_addr (data.take byte_count) p.2).2
      some (nvm_ctrl o NVM_CMD_ERWP s2)

/-- Tail of `write_flash_v3` after the erase/buffer-clear branch: wait for
idle, load the data, commit with `FLPW`. -/
def write_flash_v3_tail (o : Oracle) (fuel start_addr : Nat) (data : List Nat)
    (byte_count : Nat) (s : MState) : Option (Bool × MState) :=
  match nvm_wait_v3 o fuel s with
  | none => none
  | some p =>
    let s2 := if byte_count = 1 then (updi_st8 o start_addr (data.headD 0) p.2).2
              else (updi_sts8rsd o start_addr (data.take byte_count) p.2).2
    some (nvm_ctrl o NVM_V3_CMD_FLPW s2)

/-- Gen-3/5 flash writer `write_flash_v3`: wait; on a page boundary store
`0xFF` to the address then issue `FLPER` (page erase), otherwise issue
`FLPBCLR` (page buffer clear); then wait, load, commit (`FLPW`). -/
def write_flash_v3 (o : Oracle) (fuel start_addr : Nat) (data : List Nat)
    (byte_count : Nat) (is_bound : Bool) (s : MState) : Option (Bool × MState) :=
  match nvm_wait_v3 o fuel s with
  | none => none
  | some p =>
    if is_bound then
      let t := updi_st8 o start_addr 0xFF p.2
      if t.1 = false then some (false, t.2)
      else
        let u := nvm_ctrl o NVM_V3_CMD_FLPER t.2
        if u.1 = false then some (false, u.2)
        else write_flash_v3_tail o fuel start_addr data byte_count u.2
    else
      let u := nvm_ctrl o NVM_V3_CMD_FLPBCLR p.2
      if u.1 = false then some (false, u.2)
      else write_flash_v3_tail o fuel start_addr data byte_count u.2

/-- Tail of `write_flash_v2` after the erase branch: arm write mode
(`FLWR`), load (selecting the 16-bit-addressed bulk primitive above 256
bytes), commit with `NOCMD`. -/
def write_flash_v2_tail (o : Oracle) (fuel start_addr : Nat) (data : List Nat)
    (byte_count : Nat) (s : MState) : Option (Bool × MState) :=
  match nvm_ctrl_v2 o fuel NVM_V2_CMD_FLWR s with
  | none => none
  | some (false, s1) => some (false, s1)
  | some (true, s1) =>
    let s2 := if byte_count = 1 then (updi_st8 o start_addr (data.headD 0) s1).2
              else if dec1_shr8 byte_count ≠ 0 then
                (updi_sts16rsd o start_addr (data.take byte_count) s1).2
              else (updi_sts8rsd o start_addr (data.take byte_count) s1).2
    nvm_ctrl_v2 o fuel NVM_V2_CMD_NOCMD s2

/-- Gen-2/4 flash writer `write_flash_v2`: on a page boundary issue `FLPER`
(via the waiting command changer) then store the `0xFF` erase trigger; then
arm `FLWR`, load, and commit with `NOCMD`. -/
def write_flash_v2 (o : Oracle) (fuel start_addr : Nat) (data : List Nat)
    (byte_count : Nat) (is_bound : Bool) (s : MState) : Option (Bool × MState) :=
  if is_bound then
    match nvm_ctrl_v2 o fuel NVM_V2_CMD_FLPER s with
    | none => none
    | some (false, s1) => some (false, s1)
    | some (true, s1) =>
      let t := updi_st8 o start_addr 0xFF s1
      if t.1 = false then some (false, t.2)
      else write_flash_v2_tail o fuel start_addr data byte_count t.2
  else write_flash_v2_tail o fuel start_addr data byte_count s

/-- Tail of `write_flash_v0`: wait for idle, load the data, commit with
`ERWP`. -/
def write_flash_v0_tail (o : Oracle) (fuel start_addr : Nat) (data : List Nat)
    (byte_count : Nat) (s1 : MState) : Option (Bool × MState) :=
  match nvm_wait o fuel s1 with
  | none => none
  | some p =>
    let s2 := if byte_count = 1 then (updi_st8 o start_addr (data.headD 0) p.2).2
              else (updi_sts8rsd o start_addr (data.take byte_count) p.2).2
    some (nvm_ctrl o NVM_CMD_ERWP s2)

/-- Gen-0 flash writer `write_flash_v0`: on a page boundary wait and clear
the page buffer (`PBC`); then wait, load, commit (`ERWP`). -/
def write_flash_v0 (o : Oracle) (fuel start_addr : Nat) (data : List Nat)
    (byte_count : Nat) (is_bound : Bool) (s : MState) : Option (Bool × MState) :=
  if is_bound then
    match nvm_wait o fuel s with
    | none => none
    | some p =>
      let q := nvm_ctrl o NVM_CMD_PBC p.2
      if q.1 = false then some (false, q.2)
      else write_flash_v0_tail o fuel start_addr data byte_count q.2
  else write_flash_v0_tail o fuel start_addr data byte_count s

/-- Post-decrement do-while dummy-fill loop of `read_memory`
(`do { *data++ = 0xFF; } while (--byte_count);`), with the 16-bit wrap of
the counter modelled by `u16dec` and an explicit loop fuel. -/
def dw_fill : Nat → Nat → List Nat
  | 0, _ => []
  | lf + 1, n =>
    0xFF :: (if u16dec n = 0 then [] else dw_fill lf (u16dec n))

/-- Post-decrement do-while gen-0 fuse loop of `write_memory`
(`do { if (!write_fuse(start_addr++, *data++)) return false; }
while (--byte_count);`), with 16-bit counter wrap and explicit loop fuel;
on completion the dispatcher returns `true`. -/
def fuse_loop (o : Oracle) (fuel a : Nat) (d : List Nat) :
    Nat → Nat → Nat → MState → Option (Bool × MState)
  | 0, _, _, _ => none
  | lf + 1, i, n, s =>
    match write_fuse o fuel (a + i) (d.getD i 0) s with
    | none => none
    | some (false, s1) => some (false, s1)
    | some (true, s1) =>
      if u16dec n = 0 then some (true, s1)
      else fuse_loop o fuel a d lf (i + 1) (u16dec n) s1

/-- Reference iteration for the gen-0 fuse loop: exactly `n` sequential
`write_fuse` calls at consecutive addresses/data bytes.  Used to state that
the do-while loop, entered with `n ≥ 1`, runs exactly `n` iterations. -/
def fuse_iter (o : Oracle) (fuel a : Nat) (d : List Nat) :
    Nat → Nat → MState → Option (Bool × MState)
  | _, 0, s => some (true, s)
  | i, m + 1, s =>
    match write_fuse o fuel (a + i) (d.getD i 0) s with
    | none => none
    | some (false, s1) => some (false, s1)
    | some (true, s1) => fuse_iter o fuel a d (i + 1) m s1

/-- Signature reader `NVM::read_signature`.  At the canonical offset
(`0x1080` for Gen5 targets, else `0x1100`) it refreshes the cached
signature: a direct 3-byte target read in program mode (all zeros on
transport failure), a synthesized signature from the SIB in info/locked
mode (with the legacy space-character substitution), or all `0xFF`
offline.  It then serves the requested byte from the cache by offset. -/
def read_signature (o : Oracle) (env : Ctrl) (start_addr : Nat) (s : MState) : Bool × MState :=
  let a := start_addr % 65536
  let canonical := if env.gen5 then 0x1080 else 0x1100
  let s1 :=
    if a = canonical then
      let s0 := { s with desc := { s.desc with nvm_signature_offset := a } }
      if env.prog then
        let p := updi_lds8 o a 3 s0
        if p.1 then { p.2.2 with desc := { p.2.2.desc with signature := p.2.1 } }
        else { p.2.2 with desc := { p.2.2.desc with signature := [0, 0, 0] } }
      else if env.info then
        let c0 := s0.desc.sib.getD 0 0
        let c := if c0 = 0x20 then s0.desc.sib.getD 4 0 else c0
        { s0 with desc := { s0.desc with signature := [0x1E, c, s0.desc.sib.getD 10 0] } }
      else
        { s0 with desc := { s0.desc with signature := [0xFF, 0xFF, 0xFF] } }
    else s
  let idx := (a + 65536 - s1.desc.nvm_signature_offset % 65536) % 65536 % 256
  if idx < 3 then (true, { s1 with out := [s1.desc.signature.getD idx 0] })
  else (false, s1)

/-- Memory read core `NVM::read_memory`.  Validates the count (1..512,
even above 256), then: single-byte signature reads delegate to
`read_signature`; single-byte low-address reads in program mode serve the
cached SIB; locked targets get a `0xFF` dummy fill with no transport call;
otherwise a direct bulk read (16-bit-addressed above 256 bytes).  The two
compile-time feature branches (`ENABLE_ADDFEATS_LOCK_SIG`,
`ENABLE_ADDFEATS_DUMP_SIB`) are enabled, as the spec describes both as part
of the read core. -/
def read_memory (o : Oracle) (env : Ctrl) (mem_type start_addr byte_count : Nat)
    (s : MState) : Bool × MState :=
  let n := byte_count % 65536
  let a := start_addr % 4294967296
  let s0 := { s with msgid := RSP_MEMORY }
  if n = 0 ∨ n > 512 ∨ (n > 256 ∧ n % 2 = 1) then
    (true, set_response RSP_ILLEGAL_MEMORY_RANGE s0)
  else
    let s1 := { s0 with size_word := n + 1 }
    if n = 1 ∧ mem_type % 256 = MTYPE_SIGN_JTAG then
      read_signature o env (a % 65536) s1
    else if n = 1 ∧ env.prog = true ∧ (a / 65536 % 256) &&& 0x80 = 0 ∧ a % 65536 < 32 then
      (true, { s1 with out := [s1.desc.sib.getD (a % 256) 0] })
    else if env.prog = false then
      (true, { s1 with out := dw_fill 65536 n })
    else if dec1_shr8 n ≠ 0 then
      let p := updi_lds16 o a n s1
      (p.1, { p.2.2 with out := p.2.1 })
    else
      let p := updi_lds8 o a n s1
      (p.1, { p.2.2 with out := p.2.1 })

/-- Shared EEPROM generation dispatch of `write_memory` (the fuse/lock-bit
classes fall through to this on non-Gen0 controllers). -/
def eeprom_write (o : Oracle) (fuel : Nat) (env : Ctrl) (a : Nat) (d : List Nat) (n : Nat)
    (s : MState) : Option (Bool × MState) :=
  if env.gen3 then some (write_eeprom_v3 o a d n s)
  else if env.gen2 then write_eeprom_v2 o fuel a d n s
  else write_eeprom_v0 o fuel a d n s

/-- Flash generation dispatch of `write_memory`. -/
def flash_write (o : Oracle) (fuel : Nat) (env : Ctrl) (a : Nat) (d : List Nat) (n : Nat)
    (is_bound : Bool) (s : MState) : Option (Bool × MState) :=
  if env.gen3 then write_flash_v3 o fuel a d n is_bound s
  else if env.gen2 then write_flash_v2 o fuel a d n is_bound s
  else write_flash_v0 o fuel a d n is_bound s

/-- Write dispatcher `NVM::write_memory`.  Addresses with a nonzero top
byte are reinterpreted as SRAM/IO with the address masked to 16 bits; on
locked (info-mode) targets only the user-signature class is writable, via
the external user-row writer with the raw byte count; otherwise program
mode is required; flash classes are checked against the cached page size
(or exactly 256) and dispatched with the computed page-boundary flag;
remaining classes are range-checked (1..256) and dispatched to SRAM, the
gen-0 per-byte fuse loop, or the EEPROM writers; unknown memory types get
an illegal-memory-type response. -/
def write_memory (o : Oracle) (fuel : Nat) (env : Ctrl) (mem_type0 start_addr0 byte_count0 : Nat)
    (d : List Nat) (s : MState) : Option (Bool × MState) :=
  let n := byte_count0 % 65536
  let a0 := start_addr0 % 4294967296
  let io := a0 / 16777216 ≠ 0
  let a := if io then a0 % 65536 else a0
  let mt := if io then MTYPE_SRAM else mem_type0 % 256
  let s0 := set_response RSP_OK s
  if env.info = true ∧ mt = MTYPE_XMEGA_USERSIG then
    some (updi_write_userrow o a n s0)
  else if env.prog = false then some (false, s0)
  else if mt = MTYPE_FLASH_PAGE ∨ mt = MTYPE_XMEGA_APP_FLASH ∨ mt = MTYPE_XMEGA_BOOT_FLASH then
    if s0.desc.flash_page_size ≠ n ∧ 256 ≠ n then
      some (true, set_response RSP_NO_TARGET_POWER s0)
    else
      let is_bound : Bool := !env.erfm && (u16dec s0.desc.flash_page_size &&& (a % 65536) == 0)
      flash_write o fuel env a d n is_bound s0
  else if n = 0 ∨ n > 256 then some (true, set_response RSP_ILLEGAL_MEMORY_RANGE s0)
  else if mt = MTYPE_SRAM then some (updi_sts8 o a (d.take n) s0)
  else if mt = MTYPE_LOCK_BITS ∨ mt = MTYPE_FUSE_BITS then
    if env.gen3 = false ∧ env.gen2 = false then fuse_loop o fuel a d 65536 0 n s0
    else eeprom_write o fuel env a d n s0
  else if mt = MTYPE_XMEGA_EEPROM ∨ mt = MTYPE_EEPROM_PAGE ∨ mt = MTYPE_EEPROM then
    eeprom_write o fuel env a d n s0
  else some (true, set_response RSP_ILLEGAL_MEMORY_TYPE s0)

/-- Predicate: a trace chunk consists only of status reads of register `reg`
(the observable footprint of a busy-wait loop). -/
def onlyLd (reg : Nat) (w : List Event) : Prop := ∀ e ∈ w, e = Event.ld8 reg

/-- Characterization of the busy-wait: on termination it has appended some
nonempty chunk of status reads to the trace, advanced the oracle index
accordingly, left every other state component unchanged, and returned a
status byte with the two busy bits clear. -/
theorem nvm_waitR_spec (o : Oracle) (reg : Nat) :
    ∀ (f : Nat) (s : MState) (v : Nat) (s' : MState),
      nvm_waitR o reg f s = some (v, s') →
      ∃ w, onlyLd reg w ∧ s'.trace = s.trace ++ w ∧ s'.k = s.k + w.length ∧
        s'.resp = s.resp ∧ s'.msgid = s.msgid ∧ s'.size_word = s.size_word ∧
        s'.out = s.out ∧ s'.desc = s.desc ∧ v % 4 = 0 ∧ v < 256 ∧ w ≠ [] ∧
        v = o.ldVal (s.k + (w.length - 1)) reg % 256 := by
  intro f
  induction f with
  | zero =>
      intro s v s' h
      simp only [nvm_waitR, updi_ld8] at h
      by_cases hc : o.ldVal s.k reg % 256 % 4 = 0
      · rw [if_pos hc] at h
        simp only [Option.some.injEq, Prod.mk.injEq] at h
        obtain ⟨h1, h2⟩ := h
        subst h2
        refine ⟨[Event.ld8 reg], ?_, ?_, ?_, rfl, rfl, rfl, rfl, rfl, ?_, ?_, ?_, ?_⟩
        · simp [onlyLd]
        · simp [push]
        · simp [push]
        · rw [← h1]; exact hc
        · rw [← h1]; exact Nat.mod_lt _ (by omega)
        · simp
        · simp [h1]
      · rw [if_neg hc] at h
        exact absurd h (by simp)
  | succ f ih =>
      intro s v s' h
      simp only [nvm_waitR, updi_ld8] at h
      by_cases hc : o.ldVal s.k reg % 256 % 4 = 0
      · rw [if_pos hc] at h
        simp only [Option.some.injEq, Prod.mk.injEq] at h
        obtain ⟨h1, h2⟩ := h
        subst h2
        refine ⟨[Event.ld8 reg], ?_, ?_, ?_, rfl, rfl, rfl, rfl, rfl, ?_, ?_, ?_, ?_⟩
        · simp [onlyLd]
        · simp [push]
        · simp [push]
        · rw [← h1]; exact hc
        · rw [← h1]; exact Nat.mod_lt _ (by omega)
        · simp
        · simp [h1]
      · rw [if_neg hc] at h
        obtain ⟨w, hw, htr, hk, hresp, hmsg, hsz, hout, hdesc, hv, hvlt, hne, hvo⟩ :=
          ih _ _ _ h
        have hlen : 1 ≤ w.length := List.length_pos.mpr hne
        refine ⟨Event.ld8 reg :: w, ?_, ?_, ?_, ?_, ?_, ?_, ?_, ?_, hv, hvlt, ?_, ?_⟩
        · simp only [onlyLd] at hw ⊢
          intro e he
          cases he with
          | head => rfl
          | tail _ h2 => exact hw e h2
        · rw [htr]; simp [push]
        · rw [hk]; simp [push]; omega
        · rw [hresp]; rfl
        · rw [hmsg]; rfl
        · rw [hsz]; rfl
        · rw [hout]; rfl
        · rw [hdesc]; rfl
        · simp
        · rw [hvo]
          have hidx : (push (Event.ld8 reg) s).k + (w.length - 1) =
              s.k + ((Event.ld8 reg :: w).length - 1) := by
            simp only [push, List.length_cons]
            omega
          rw [hidx]

/-- Exhaustive case analysis of `nvm_ctrl_change`: if the control register
already reads the requested opcode only the read is issued and the call
succeeds; otherwise `NOCMD` is stored (failure of that store is the only
way to return `false` there), and the requested opcode is stored afterwards
exactly when it is not itself `NOCMD`. -/
theorem nvm_ctrl_change_cases (o : Oracle) (cmd : Nat) (s : MState) :
    (o.ldVal s.k NVMCTRL_REG_CTRLA % 256 = cmd % 256 ∧
      nvm_ctrl_change o cmd s = (true, push (Event.ld8 NVMCTRL_REG_CTRLA) s))
  ∨ (o.ldVal s.k NVMCTRL_REG_CTRLA % 256 ≠ cmd % 256 ∧ o.stOk (s.k + 1) = false ∧
      nvm_ctrl_change o cmd s =
        (false, push (Event.st8 NVMCTRL_REG_CTRLA 0) (push (Event.ld8 NVMCTRL_REG_CTRLA) s)))
  ∨ (o.ldVal s.k NVMCTRL_REG_CTRLA % 256 ≠ cmd % 256 ∧ o.stOk (s.k + 1) = true ∧ cmd % 256 = 0 ∧
      nvm_ctrl_change o cmd s =
        (true, push (Event.st8 NVMCTRL_REG_CTRLA 0) (push (Event.ld8 NVMCTRL_REG_CTRLA) s)))
  ∨ (o.ldVal s.k NVMCTRL_REG_CTRLA % 256 ≠ cmd % 256 ∧ o.stOk (s.k + 1) = true ∧ cmd % 256 ≠ 0 ∧
      nvm_ctrl_change o cmd s =
        (o.stOk (s.k + 2), push (Event.st8 NVMCTRL_REG_CTRLA (cmd % 256))
          (push (Event.st8 NVMCTRL_REG_CTRLA 0) (push (Event.ld8 NVMCTRL_REG_CTRLA) s)))) := by
  by_cases h1 : o.ldVal s.k NVMCTRL_REG_CTRLA % 256 = cmd % 256
  · exact Or.inl ⟨h1, by simp [nvm_ctrl_change, nvm_ctrl, updi_ld8, updi_st8, h1]⟩
  · by_cases h2 : o.stOk (s.k + 1) = false
    · refine Or.inr (Or.inl ⟨h1, h2, ?_⟩)
      simp [nvm_ctrl_change, nvm_ctrl, updi_ld8, updi_st8, push, h1, h2, NVM_CMD_NOCMD]
    · rw [Bool.not_eq_false] at h2
      by_cases h3 : cmd % 256 = 0
      · refine Or.inr (Or.inr (Or.inl ⟨h1, h2, h3, ?_⟩))
        have h1x : o.ldVal s.k NVMCTRL_REG_CTRLA % 256 ≠ 0 := h3 ▸ h1
        simp [nvm_ctrl_change, nvm_ctrl, updi_ld8, updi_st8, push, h1x, h2, h3, NVM_CMD_NOCMD]
      · refine Or.inr (Or.inr (Or.inr ⟨h1, h2, h3, ?_⟩))
        simp [nvm_ctrl_change, nvm_ctrl, updi_ld8, updi_st8, push, h1, h2, NVM_CMD_NOCMD,
          Ne.symm h3]

/-- Trace footprint of the waiting command changer `nvm_ctrl_v2`: a chunk
of status reads followed by one of the three `nvm_ctrl_change` shapes; the
remaining state components are untouched. -/
theorem nvm_ctrl_v2_cases (o : Oracle) (fuel cmd : Nat) (s : MState) (r : Bool) (s' : MState)
    (h : nvm_ctrl_v2 o fuel cmd s = some (r, s')) :
    ∃ w t, onlyLd NVMCTRL_REG_STATUS w ∧ s'.trace = s.trace ++ w ++ t ∧
      s'.resp = s.resp ∧ s'.out = s.out ∧ s'.desc = s.desc ∧
      s'.msgid = s.msgid ∧ s'.size_word = s.size_word ∧
      (t = [Event.ld8 NVMCTRL_REG_CTRLA] ∧ r = true
       ∨ t = [Event.ld8 NVMCTRL_REG_CTRLA, Event.st8 NVMCTRL_REG_CTRLA 0]
       ∨ t = [Event.ld8 NVMCTRL_REG_CTRLA, Event.st8 NVMCTRL_REG_CTRLA 0,
              Event.st8 NVMCTRL_REG_CTRLA (cmd % 256)]) := by
  unfold nvm_ctrl_v2 at h
  cases hw : nvm_wait o fuel s with
  | none => rw [hw] at h; exact absurd h (by simp)
  | some p =>
    rw [hw] at h
    obtain ⟨v1, s1⟩ := p
    simp only [Option.some.injEq] at h
    obtain ⟨w, hwo, htr, hk, hresp, hmsg, hsz, hout, hdesc, _, _⟩ :=
      nvm_waitR_spec o NVMCTRL_REG_STATUS fuel s v1 s1 hw
    rcases nvm_ctrl_change_cases o cmd s1 with ⟨_, hc⟩ | ⟨_, _, hc⟩ | ⟨_, _, _, hc⟩ | ⟨_, _, _, hc⟩ <;>
      rw [hc] at h <;>
      obtain ⟨hr, hs⟩ := Prod.mk.injEq _ _ _ _ ▸ h.symm <;>
      subst hs
    · exact ⟨w, _, hwo, by simp [push, htr], by simp [push, hresp],
        by simp [push, hout], by simp [push, hdesc], by simp [push, hmsg],
        by simp [push, hsz], Or.inl ⟨rfl, hr⟩⟩
    · exact ⟨w, _, hwo, by simp [push, htr], by simp [push, hresp],
        by simp [push, hout], by simp [push, hdesc], by simp [push, hmsg],
        by simp [push, hsz], Or.inr (Or.inl rfl)⟩
    · exact ⟨w, _, hwo, by simp [push, htr], by simp [push, hresp],
        by simp [push, hout], by simp [push, hdesc], by simp [push, hmsg],
        by simp [push, hsz], Or.inr (Or.inl rfl)⟩
    · exact ⟨w, _, hwo, by simp [push, htr], by simp [push, hresp],
        by simp [push, hout], by simp [push, hdesc], by simp [push, hmsg],
        by simp [push, hsz], Or.inr (Or.inr rfl)⟩

/-- Signature reads never touch the protocol response code. -/
theorem read_signature_resp (o : Oracle) (env : Ctrl) (a : Nat) (s : MState) :
    (read_signature o env a s).2.resp = s.resp := by
  unfold read_signature
  simp only [updi_lds8, push]
  split <;>
    simp [apply_ite (fun p : Bool × MState => p.2.resp), apply_ite MState.resp]

/-- Entered with a 16-bit counter `1 ≤ n ≤ 65535` and enough fuel, the
post-decrement dummy-fill do-while runs exactly `n` iterations (the counter
never wraps) and produces `n` bytes of `0xFF`. -/
theorem dw_fill_replicate :
    ∀ n, 1 ≤ n → n ≤ 65535 → ∀ lf, n ≤ lf → dw_fill lf n = List.replicate n 255 := by
  intro n
  induction n with
  | zero => intro h1 _ _ _; exact absurd h1 (by omega)
  | succ m ih =>
      intro _ h2 lf hlf
      cases lf with
      | zero => omega
      | succ l =>
        have hd : u16dec (m + 1) = m := by unfold u16dec; omega
        by_cases hm : m = 0
        · subst hm
          simp [dw_fill, hd]
        · rw [List.replicate_succ]
          simp only [dw_fill, hd, if_neg hm]
          rw [ih (by omega) (by omega) l (by omega)]

/-- Entered with a 16-bit counter `1 ≤ n ≤ 65535` and enough fuel, the
post-decrement gen-0 fuse do-while loop coincides with the reference
iteration that performs exactly `n` sequential `write_fuse` calls: the
counter never wraps. -/
theorem fuse_loop_eq_iter (o : Oracle) (fuel a : Nat) (d : List Nat) :
    ∀ n, 1 ≤ n → n ≤ 65535 → ∀ lf i s, n ≤ lf →
      fuse_loop o fuel a d lf i n s = fuse_iter o fuel a d i n s := by
  intro n
  induction n with
  | zero => intro h1 _ _ _ _ _; exact absurd h1 (by omega)
  | succ m ih =>
      intro _ h2 lf i s hlf
      cases lf with
      | zero => omega
      | succ l =>
        have hd : u16dec (m + 1) = m := by unfold u16dec; omega
        simp only [fuse_loop, fuse_iter, hd]
        cases hwf : write_fuse o fuel (a + i) (d.getD i 0) s with
        | none => rfl
        | some p =>
          obtain ⟨b, s1⟩ := p
          cases b
          · rfl
          · dsimp only
            by_cases hm : m = 0
            · subst hm
              simp [fuse_iter]
            · rw [if_neg hm]
              exact ih (by omega) (by omega) l (i + 1) s1 (by omega)

/-- Sample 32-byte SIB for concrete runs (`sib[0] = 65`, `sib[10] = 51`). -/
def sib0 : List Nat := [65, 86, 82, 32, 109, 0, 0, 0, 0, 0, 51] ++ List.replicate 21 0

/-- Sample target descriptor: 128-byte flash pages, empty signature cache. -/
def desc0 : Desc :=
  { flash_page_size := 128, nvm_signature_offset := 0, signature := [0, 0, 0], sib := sib0 }

/-- Initial machine state for concrete runs. -/
def st0 : MState :=
  { trace := [], k := 0, resp := 0, msgid := 0, size_word := 0, out := [], desc := desc0 }

/-- Oracle on which every transport call succeeds, status reads return 0,
and block loads return the bytes `0x1E 0x92 0x21`. -/
def oracle0 : Oracle :=
  { ldVal := fun _ _ => 0, stOk := fun _ => true, blkOk := fun _ => true,
    blkVal := fun _ j => [30, 146, 33].getD j 0 }

/-- Oracle on which block loads fail by transport. -/
def oracleBlkFail : Oracle :=
  { ldVal := fun _ _ => 0, stOk := fun _ => true, blkOk := fun _ => false,
    blkVal := fun _ _ => 0 }

/-- Session flags: program mode on a Gen0 target. -/
def envG0 : Ctrl :=
  { prog := true, info := false, erfm := false, gen2 := false, gen3 := false, gen5 := false }

/-- Session flags: info/locked mode (no program mode), Gen0 target. -/
def envLocked : Ctrl :=
  { prog := false, info := true, erfm := false, gen2 := false, gen3 := false, gen5 := false }

/-- C2: for every generation, a flash-class write whose byte count matches
neither the descriptor's cached flash page size nor 256 makes
`write_memory` set the `NO_TARGET_POWER` (page-size mismatch) response and
return success-of-call `true`, with the final state exactly the input state
plus response codes — so no transport command is issued and no generation
writer runs. -/
theorem C2_flash_pagesize_mismatch (o : Oracle) (fuel : Nat) (env : Ctrl)
    (mt a n : Nat) (d : List Nat) (s : MState)
    (hprog : env.prog = true)
    (ha : a < 16777216)
    (hmt : mt % 256 = MTYPE_FLASH_PAGE ∨ mt % 256 = MTYPE_XMEGA_APP_FLASH ∨
      mt % 256 = MTYPE_XMEGA_BOOT_FLASH)
    (hn1 : s.desc.flash_page_size ≠ n % 65536)
    (hn2 : n % 65536 ≠ 256) :
    write_memory o fuel env mt a n d s =
      some (true, set_response RSP_NO_TARGET_POWER (set_response RSP_OK s)) := by
  have ha32 : a % 4294967296 = a := Nat.mod_eq_of_lt (by omega)
  have hio : a / 16777216 = 0 := Nat.div_eq_of_lt ha
  rcases hmt with h | h | h <;>
    simp [write_memory, ha32, hio, h, MTYPE_FLASH_PAGE, MTYPE_XMEGA_APP_FLASH,
      MTYPE_XMEGA_BOOT_FLASH, MTYPE_XMEGA_USERSIG, hprog, set_response, hn1, Ne.symm hn2]

/-- Witness for C2 at a concrete input (Gen0, 64-byte request against a
128-byte page). -/
theorem C2_witness :
    write_memory oracle0 1 envG0 MTYPE_FLASH_PAGE 32768 64 [] st0 =
      some (true, set_response RSP_NO_TARGET_POWER (set_response RSP_OK st0)) :=
  C2_flash_pagesize_mismatch oracle0 1 envG0 MTYPE_FLASH_PAGE 32768 64 [] st0 rfl
    (by decide) (Or.inl (by decide)) (by decide) (by decide)

/-- C3: each EEPROM writer, handed a byte count above its generation's bulk
ceiling (8 for Gen3/5, 2 for Gen2/4, 64 for Gen0), sets the
`ILLEGAL_MEMORY_RANGE` response and returns success-of-call `true`; the
final state is the input state with only the response code changed, so no
transport command is issued and the condition is never a transport-level
`false`. -/
theorem C3_eeprom_ceiling (o : Oracle) (fuel a : Nat) (d : List Nat) (n : Nat) (s : MState) :
    (n > 8 → write_eeprom_v3 o a d n s = (true, set_response RSP_ILLEGAL_MEMORY_RANGE s)) ∧
    (n > 2 → write_eeprom_v2 o fuel a d n s = some (true, set_response RSP_ILLEGAL_MEMORY_RANGE s)) ∧
    (n > 64 → write_eeprom_v0 o fuel a d n s = some (true, set_response RSP_ILLEGAL_MEMORY_RANGE s)) := by
  refine ⟨fun h => ?_, fun h => ?_, fun h => ?_⟩ <;>
    simp [write_eeprom_v3, write_eeprom_v2, write_eeprom_v0, h]

/-- Witness for C3 at concrete over-ceiling counts 9, 3, 65. -/
theorem C3_witness :
    write_eeprom_v3 oracle0 0 [] 9 st0 = (true, set_response RSP_ILLEGAL_MEMORY_RANGE st0) ∧
    write_eeprom_v2 oracle0 1 0 [] 3 st0 = some (true, set_response RSP_ILLEGAL_MEMORY_RANGE st0) ∧
    write_eeprom_v0 oracle0 1 0 [] 65 st0 = some (true, set_response RSP_ILLEGAL_MEMORY_RANGE st0) :=
  ⟨(C3_eeprom_ceiling oracle0 1 0 [] 9 st0).1 (by decide),
   (C3_eeprom_ceiling oracle0 1 0 [] 3 st0).2.1 (by decide),
   (C3_eeprom_ceiling oracle0 1 0 [] 65 st0).2.2 (by decide)⟩

/-- C4: `read_memory` rejects exactly the counts outside `[1, 512]` and the
odd counts above 256 — those produce the `ILLEGAL_MEMORY_RANGE` response,
return `true`, and leave the state untouched apart from the response fields
(no transport read) — while every count in `[1, 256]` and every even count
in `[258, 512]` leaves the response code unchanged (no rejection). -/
theorem C4_read_count_validation (o : Oracle) (env : Ctrl) (mt a n : Nat) (s : MState)
    (hn : n < 65536) :
    ((n = 0 ∨ n > 512 ∨ (n > 256 ∧ n % 2 = 1)) →
      read_memory o env mt a n s =
        (true, set_response RSP_ILLEGAL_MEMORY_RANGE { s with msgid := RSP_MEMORY })) ∧
    ((1 ≤ n ∧ n ≤ 256 ∨ 258 ≤ n ∧ n ≤ 512 ∧ n % 2 = 0) →
      (read_memory o env mt a n s).2.resp = s.resp) := by
  have hmod : n % 65536 = n := Nat.mod_eq_of_lt hn
  constructor
  · intro h
    simp only [read_memory, hmod]
    rw [if_pos h]
  · intro h
    have hg : ¬(n = 0 ∨ n > 512 ∨ (n > 256 ∧ n % 2 = 1)) := by omega
    simp only [read_memory, hmod]
    rw [if_neg hg]
    by_cases h1 : n = 1 ∧ mt % 256 = MTYPE_SIGN_JTAG
    · rw [if_pos h1]
      exact read_signature_resp o env _ _
    · rw [if_neg h1]
      split
      · rfl
      · split
        · rfl
        · split
          · rfl
          · rfl

/-- Witness for C4: count 0 rejected, count 256 accepted. -/
theorem C4_witness :
    read_memory oracle0 envG0 32 0 0 st0 =
      (true, set_response RSP_ILLEGAL_MEMORY_RANGE { st0 with msgid := RSP_MEMORY }) ∧
    (read_memory oracle0 envG0 32 0 256 st0).2.resp = st0.resp :=
  ⟨(C4_read_count_validation oracle0 envG0 32 0 0 st0 (by decide)).1 (Or.inl rfl),
   (C4_read_count_validation oracle0 envG0 32 0 256 st0 (by decide)).2 (Or.inl (by decide))⟩

/-- C9: with the info/locked flag set and memory type `MTYPE_XMEGA_USERSIG`
(and the address inside the 24-bit target space, so the SRAM override does
not fire), `write_memory` delegates to the external user-row writer with
the raw 16-bit byte count for every count value — 0, counts above 256, and
counts not a multiple of 32 included — issuing exactly that one transport
call and performing no validation of its own. -/
theorem C9_userrow_bypass (o : Oracle) (fuel : Nat) (env : Ctrl) (a n : Nat) (d : List Nat)
    (s : MState) (hinfo : env.info = true) (ha : a < 16777216) :
    write_memory o fuel env MTYPE_XMEGA_USERSIG a n d s =
      some (o.stOk s.k, push (Event.userrow a (n % 65536)) (set_response RSP_OK s)) := by
  have ha32 : a % 4294967296 = a := Nat.mod_eq_of_lt (by omega)
  have hio : a / 16777216 = 0 := Nat.div_eq_of_lt ha
  simp [write_memory, ha32, hio, hinfo, updi_write_userrow, set_response, push,
    MTYPE_XMEGA_USERSIG]

/-- Witness for C9 at the raw count 300 (above 256 and not a multiple of
32): the request is still delegated unvalidated. -/
theorem C9_witness :
    write_memory oracle0 1 envLocked MTYPE_XMEGA_USERSIG 4096 300 [] st0 =
      some (oracle0.stOk st0.k, push (Event.userrow 4096 (300 % 65536)) (set_response RSP_OK st0)) :=
  C9_userrow_bypass oracle0 1 envLocked 4096 300 [] st0 rfl (by decide)

/-- C10: the two post-decrement do-while loops are safe. (1) The dummy-fill
loop run on a 16-bit counter `1 ≤ n ≤ 65535` produces exactly `n` bytes of
`0xFF` — `n` iterations, no counter wrap. (2) The gen-0 fuse loop under the
same condition equals the reference recursion performing exactly `n`
`write_fuse` calls. (3) `read_memory` rejects a zero count before its loop
is reached, and (4) `write_memory` rejects a zero count before the fuse
loop is reached — so both loops are only ever entered with count `≥ 1`. -/
theorem C10_dowhile_loops :
    (∀ n lf, 1 ≤ n → n ≤ 65535 → n ≤ lf → dw_fill lf n = List.replicate n 255) ∧
    (∀ (o : Oracle) (fuel a : Nat) (d : List Nat) (n lf i : Nat) (s : MState),
      1 ≤ n → n ≤ 65535 → n ≤ lf →
      fuse_loop o fuel a d lf i n s = fuse_iter o fuel a d i n s) ∧
    (∀ (o : Oracle) (env : Ctrl) (mt a n : Nat) (s : MState), n % 65536 = 0 →
      read_memory o env mt a n s =
        (true, set_response RSP_ILLEGAL_MEMORY_RANGE { s with msgid := RSP_MEMORY })) ∧
    (∀ (o : Oracle) (fuel : Nat) (env : Ctrl) (a : Nat) (d : List Nat) (s : MState),
      env.prog = true → a < 16777216 →
      write_memory o fuel env MTYPE_FUSE_BITS a 0 d s =
        some (true, set_response RSP_ILLEGAL_MEMORY_RANGE (set_response RSP_OK s))) := by
  refine ⟨fun n lf h1 h2 h3 => dw_fill_replicate n h1 h2 lf h3,
    fun o fuel a d n lf i s h1 h2 h3 => fuse_loop_eq_iter o fuel a d n h1 h2 lf i s h3,
    fun o env mt a n s h => ?_, fun o fuel env a d s hprog ha => ?_⟩
  · simp [read_memory, h, set_response]
  · have ha32 : a % 4294967296 = a := Nat.mod_eq_of_lt (by omega)
    have hio : a / 16777216 = 0 := Nat.div_eq_of_lt ha
    simp [write_memory, ha32, hio, hprog, set_response, MTYPE_FUSE_BITS, MTYPE_SRAM,
      MTYPE_FLASH_PAGE, MTYPE_XMEGA_APP_FLASH, MTYPE_XMEGA_BOOT_FLASH, MTYPE_XMEGA_USERSIG]

/-- Witness for C10 at concrete inputs (counts 3 and 2; zero-count
rejections in both dispatchers). -/
theorem C10_witness :
    dw_fill 65536 3 = List.replicate 3 255 ∧
    fuse_loop oracle0 1 100 [1, 2] 65536 0 2 st0 = fuse_iter oracle0 1 100 [1, 2] 0 2 st0 ∧
    read_memory oracle0 envG0 32 7 0 st0 =
      (true, set_response RSP_ILLEGAL_MEMORY_RANGE { st0 with msgid := RSP_MEMORY }) ∧
    write_memory oracle0 1 envG0 MTYPE_FUSE_BITS 4096 0 [] st0 =
      some (true, set_response RSP_ILLEGAL_MEMORY_RANGE (set_response RSP_OK st0)) :=
  ⟨C10_dowhile_loops.1 3 65536 (by decide) (by decide) (by decide),
   C10_dowhile_loops.2.1 oracle0 1 100 [1, 2] 2 65536 0 st0 (by decide) (by decide) (by decide),
   C10_dowhile_loops.2.2.1 oracle0 envG0 32 7 0 st0 (by decide),
   C10_dowhile_loops.2.2.2 oracle0 1 envG0 4096 [] st0 rfl (by decide)⟩

/-- C8: `nvm_ctrl_change` is idempotent when the control register already
reads the requested opcode — it returns `true` having issued only the read,
no transport write (first conjunct; in particular with the opcode `NOCMD`).
Otherwise it first stores `NOCMD`, stores the requested opcode afterwards
exactly when that opcode is not itself `NOCMD`, and returns `false` only
when one of those stores fails by transport — never because of a command
value mismatch. -/
theorem C8_change_command (o : Oracle) (cmd : Nat) (s : MState) :
    (o.ldVal s.k NVMCTRL_REG_CTRLA % 256 = cmd % 256 →
      nvm_ctrl_change o cmd s = (true, push (Event.ld8 NVMCTRL_REG_CTRLA) s)) ∧
    (o.ldVal s.k NVMCTRL_REG_CTRLA % 256 ≠ cmd % 256 → cmd % 256 = NVM_CMD_NOCMD →
      nvm_ctrl_change o cmd s =
        (o.stOk (s.k + 1),
          push (Event.st8 NVMCTRL_REG_CTRLA 0) (push (Event.ld8 NVMCTRL_REG_CTRLA) s))) ∧
    (o.ldVal s.k NVMCTRL_REG_CTRLA % 256 ≠ cmd % 256 → cmd % 256 ≠ NVM_CMD_NOCMD →
      nvm_ctrl_change o cmd s =
        (if o.stOk (s.k + 1) = false then
          (false, push (Event.st8 NVMCTRL_REG_CTRLA 0) (push (Event.ld8 NVMCTRL_REG_CTRLA) s))
         else
          (o.stOk (s.k + 2), push (Event.st8 NVMCTRL_REG_CTRLA (cmd % 256))
            (push (Event.st8 NVMCTRL_REG_CTRLA 0) (push (Event.ld8 NVMCTRL_REG_CTRLA) s))))) := by
  refine ⟨fun h1 => ?_, fun h1 h3 => ?_, fun h1 h3 => ?_⟩
  · simp [nvm_ctrl_change, updi_ld8, h1]
  · rcases nvm_ctrl_change_cases o cmd s with ⟨hc, _⟩ | ⟨_, h2, he⟩ | ⟨_, h2, _, he⟩ | ⟨_, _, hcc, _⟩
    · exact absurd hc h1
    · rw [he, h2]
    · rw [he, h2]
    · exact absurd h3 hcc
  · rcases nvm_ctrl_change_cases o cmd s with ⟨hc, _⟩ | ⟨_, h2, he⟩ | ⟨_, _, hcc, _⟩ | ⟨_, h2, _, he⟩
    · exact absurd hc h1
    · rw [he, if_pos h2]
    · exact absurd hcc h3
    · rw [he, if_neg (by simp [h2])]

/-- Witness for C8: with the register reading 0, requesting `NOCMD` is a
pure no-op; requesting opcode 2 issues the clear and the opcode store. -/
theorem C8_witness :
    nvm_ctrl_change oracle0 0 st0 = (true, push (Event.ld8 NVMCTRL_REG_CTRLA) st0) ∧
    nvm_ctrl_change oracle0 2 st0 =
      (oracle0.stOk 2, push (Event.st8 NVMCTRL_REG_CTRLA 2)
        (push (Event.st8 NVMCTRL_REG_CTRLA 0) (push (Event.ld8 NVMCTRL_REG_CTRLA) st0))) := by
  constructor
  · exact (C8_change_command oracle0 0 st0).1 rfl
  · have h := (C8_change_command oracle0 2 st0).2.2 (by decide) (by decide)
    simpa using h

/-- C5 counterexample: with the program-mode flag clear, a single-byte read
of memory type `MTYPE_SIGN_JTAG` at the canonical signature offset on an
info-mode (locked) target returns the synthesized vendor byte `0x1E`, not
`0xFF` — so the claim's universal `0xFF` fill fails at this input. -/
theorem C5_locked_read_counterexample :
    envLocked.prog = false ∧
    (read_memory oracle0 envLocked MTYPE_SIGN_JTAG 4352 1 st0).2.out ≠ List.replicate 1 255 := by
  exact ⟨rfl, by decide⟩

/-- C5 (amended): with the program-mode flag clear, for every accepted
count `n ≥ 1` and every address, provided the request is not the
single-byte signature special case (count 1 with memory type
`MTYPE_SIGN_JTAG`), `read_memory` fills the response with `n` bytes all
equal to `0xFF` and issues zero transport calls (the final state's trace is
the input trace). -/
theorem C5_locked_read_ff_fill (o : Oracle) (env : Ctrl) (mt a n : Nat) (s : MState)
    (hprog : env.prog = false)
    (h1 : 1 ≤ n) (h2 : n ≤ 512) (h3 : n > 256 → n % 2 = 0)
    (hsig : ¬(n = 1 ∧ mt % 256 = MTYPE_SIGN_JTAG)) :
    read_memory o env mt a n s =
      (true, { s with msgid := RSP_MEMORY, size_word := n + 1, out := List.replicate n 255 }) := by
  have hmod : n % 65536 = n := Nat.mod_eq_of_lt (by omega)
  have hg : ¬(n = 0 ∨ n > 512 ∨ (n > 256 ∧ n % 2 = 1)) := by omega
  simp only [read_memory, hmod]
  rw [if_neg hg, if_neg hsig, if_neg (by simp [hprog]), if_pos hprog,
    dw_fill_replicate n h1 (by omega) 65536 (by omega)]

/-- Witness for the amended C5 at a concrete locked 4-byte read. -/
theorem C5_locked_read_ff_fill_witness :
    read_memory oracle0 envLocked 32 123 4 st0 =
      (true, { st0 with msgid := RSP_MEMORY, size_word := 4 + 1, out := List.replicate 4 255 }) :=
  C5_locked_read_ff_fill oracle0 envLocked 32 123 4 st0 rfl (by decide) (by decide)
    (by omega) (by decide)

/-- State after a first successful program-mode signature read at the
canonical offset `0x1100`, which caches the signature `0x1E 0x92 0x21`. -/
def st6 : MState := (read_signature oracle0 envG0 4352 st0).2

/-- C6 counterexample: after a first call cached `0x1E 0x92 0x21`, a second
program-mode call at the same canonical offset whose 3-byte direct read
fails by transport serves the byte 0 — not the cached first byte `0x1E` as
the claim states: the cache is re-queried and overwritten on every
canonical-offset call. -/
theorem C6_signature_cache_counterexample :
    st6.desc.signature = [30, 146, 33] ∧
    (read_signature oracleBlkFail envG0 4352 st6).2.out = [0] ∧
    (read_signature oracleBlkFail envG0 4352 st6).2.out ≠ [st6.desc.signature.getD 0 0] := by
  exact ⟨by decide, by decide, by decide⟩

/-- C6 (amended): a program-mode signature read at the canonical offset
always re-queries the target; on a transport failure it stores the
signature `{0, 0, 0}` (overwriting any previously cached value) and serves
the byte 0, issuing exactly the one 3-byte block load. The original
claim's no-prior-cache half is the special case of this statement. -/
theorem C6_signature_failure_zeros (o : Oracle) (env : Ctrl) (s : MState)
    (hprog : env.prog = true) (hgen5 : env.gen5 = false) (hblk : o.blkOk s.k = false) :
    (read_signature o env 4352 s).1 = true ∧
    (read_signature o env 4352 s).2.desc.signature = [0, 0, 0] ∧
    (read_signature o env 4352 s).2.out = [0] ∧
    (read_signature o env 4352 s).2.trace = s.trace ++ [Event.lds8 4352 3] := by
  simp [read_signature, hprog, hgen5, hblk, updi_lds8, push]

/-- Witness for the amended C6: no prior cache, transport failure, result
signature `{0, 0, 0}`. -/
theorem C6_signature_failure_zeros_witness :
    (read_signature oracleBlkFail envG0 4352 st0).1 = true ∧
    (read_signature oracleBlkFail envG0 4352 st0).2.desc.signature = [0, 0, 0] ∧
    (read_signature oracleBlkFail envG0 4352 st0).2.out = [0] ∧
    (read_signature oracleBlkFail envG0 4352 st0).2.trace = st0.trace ++ [Event.lds8 4352 3] :=
  C6_signature_failure_zeros oracleBlkFail envG0 st0 rfl rfl rfl

/-- C7: a terminating gen-0 fuse write consists of a status wait, exactly
one packed 4-byte block store (`{2-byte zero-extended data, 2-byte
address}` little-endian, via `fuse_packet`) to the controller data
register, then exactly one `WFU` command, then a final wait; it returns
`true` iff both stores succeeded and the low 3 bits of the final waited
status byte — the oracle's value at the last status read of the final wait
chunk, whose two busy bits are clear — are zero.  The three disjuncts are
the two store-failure prefixes (both returning `false`) and the completed
sequence. -/
theorem C7_write_fuse_sequence (o : Oracle) (fuel addr data : Nat) (s : MState) (r : Bool)
    (s' : MState) (h : write_fuse o fuel addr data s = some (r, s')) :
    ∃ w1, onlyLd NVMCTRL_REG_STATUS w1 ∧
      ((o.stOk (s.k + w1.length) = false ∧ r = false ∧
         s'.trace = s.trace ++ w1 ++
           [Event.sts8 NVMCTRL_REG_DATA ((fuse_packet addr data).map (fun x => x % 256))])
       ∨ (o.stOk (s.k + w1.length) = true ∧ o.stOk (s.k + w1.length + 1) = false ∧ r = false ∧
         s'.trace = s.trace ++ w1 ++
           [Event.sts8 NVMCTRL_REG_DATA ((fuse_packet addr data).map (fun x => x % 256)),
            Event.st8 NVMCTRL_REG_CTRLA (NVM_CMD_WFU % 256)])
       ∨ (o.stOk (s.k + w1.length) = true ∧ o.stOk (s.k + w1.length + 1) = true ∧
         ∃ w2, onlyLd NVMCTRL_REG_STATUS w2 ∧ w2 ≠ [] ∧
           o.ldVal (s.k + w1.length + 2 + (w2.length - 1)) NVMCTRL_REG_STATUS % 256 % 4 = 0 ∧
           r = decide (o.ldVal (s.k + w1.length + 2 + (w2.length - 1))
             NVMCTRL_REG_STATUS % 256 % 8 = 0) ∧
           s'.trace = s.trace ++ w1 ++
             [Event.sts8 NVMCTRL_REG_DATA ((fuse_packet addr data).map (fun x => x % 256)),
              Event.st8 NVMCTRL_REG_CTRLA (NVM_CMD_WFU % 256)] ++ w2)) := by
  unfold write_fuse at h
  cases hw1 : nvm_wait o fuel s with
  | none => rw [hw1] at h; exact absurd h (by simp)
  | some p =>
    rw [hw1] at h
    obtain ⟨v1, s1⟩ := p
    obtain ⟨w1, hw1o, htr1, hk1, _, _, _, _, _, _, _⟩ :=
      nvm_waitR_spec o NVMCTRL_REG_STATUS fuel s v1 s1 (by simpa [nvm_wait] using hw1)
    refine ⟨w1, hw1o, ?_⟩
    simp only [updi_sts8, nvm_ctrl, updi_st8] at h
    by_cases h1 : o.stOk s1.k = false
    · rw [if_pos h1] at h
      simp only [Option.some.injEq, Prod.mk.injEq] at h
      obtain ⟨hr, hs⟩ := h
      subst hs
      exact Or.inl ⟨hk1 ▸ h1, hr.symm, by simp [push, htr1]⟩
    · rw [if_neg h1] at h
      rw [Bool.not_eq_false] at h1
      by_cases h2 : o.stOk (push (Event.sts8 NVMCTRL_REG_DATA
          ((fuse_packet addr data).map (fun x => x % 256))) s1).k = false
      · rw [if_pos h2] at h
        simp only [Option.some.injEq, Prod.mk.injEq] at h
        obtain ⟨hr, hs⟩ := h
        subst hs
        refine Or.inr (Or.inl ⟨hk1 ▸ h1, ?_, hr.symm, by simp [push, htr1]⟩)
        simpa [push, hk1] using h2
      · rw [if_neg h2] at h
        cases hw2 : nvm_wait o fuel (push (Event.st8 NVMCTRL_REG_CTRLA (NVM_CMD_WFU % 256))
            (push (Event.sts8 NVMCTRL_REG_DATA
              ((fuse_packet addr data).map (fun x => x % 256))) s1)) with
        | none => rw [hw2] at h; exact absurd h (by simp)
        | some q =>
          rw [hw2] at h
          obtain ⟨v2, s2⟩ := q
          obtain ⟨w2, hw2o, htr2, _, _, _, _, _, _, hv2, _, hne2, hvo2⟩ :=
            nvm_waitR_spec o NVMCTRL_REG_STATUS fuel _ v2 s2 (by simpa [nvm_wait] using hw2)
          simp only [Option.some.injEq, Prod.mk.injEq] at h
          obtain ⟨hr, hs⟩ := h
          subst hs
          have hidx : (push (Event.st8 NVMCTRL_REG_CTRLA (NVM_CMD_WFU % 256))
              (push (Event.sts8 NVMCTRL_REG_DATA
                ((fuse_packet addr data).map (fun x => x % 256))) s1)).k + (w2.length - 1) =
              s.k + w1.length + 2 + (w2.length - 1) := by
            simp only [push]
            omega
          refine Or.inr (Or.inr ⟨hk1 ▸ h1, by simpa [push, hk1] using h2, w2, hw2o, hne2,
            ?_, ?_, ?_⟩)
          · rw [← hidx, ← hvo2]
            exact hv2
          · rw [← hidx, ← hvo2]
            exact hr.symm
          · rw [htr2]
            simp [push, htr1]

/-- Predicate lifting over the optional result of a (fuel-limited) writer:
the property is required whenever the untimed busy-waits terminate. -/
def onSome (P : Bool → MState → Prop) : Option (Bool × MState) → Prop
  | none => True
  | some p => P p.1 p.2

/-- Data-load footprint of the repeat-store-data writers (gen 0 and 3/5
flash, gen 0 EEPROM): a single-byte store for count 1, else one bulk
repeat-store-data block store. -/
def loadSeqRsd (a : Nat) (d : List Nat) (n : Nat) : List Event :=
  if n = 1 then [Event.st8 a (d.headD 0 % 256)]
  else [Event.sts8rsd a ((d.take n).map (fun x => x % 256))]

/-- Data-load footprint of the gen-2/4 flash writer: a single-byte store
for count 1, the 16-bit-addressed bulk store above 256 bytes, else the
8-bit bulk store. -/
def loadSeqV2 (a : Nat) (d : List Nat) (n : Nat) : List Event :=
  if n = 1 then [Event.st8 a (d.headD 0 % 256)]
  else if dec1_shr8 n ≠ 0 then [Event.sts16rsd a ((d.take n).map (fun x => x % 256))]
  else [Event.sts8rsd a ((d.take n).map (fun x => x % 256))]

/-- The three possible trace footprints of `nvm_ctrl_change` for a
requested opcode: read only (already latched), read plus `NOCMD` clear,
or read, clear, and opcode store. -/
def chgShape (cmd : Nat) (t : List Event) : Prop :=
  t = [Event.ld8 NVMCTRL_REG_CTRLA] ∨
  t = [Event.ld8 NVMCTRL_REG_CTRLA, Event.st8 NVMCTRL_REG_CTRLA 0] ∨
  t = [Event.ld8 NVMCTRL_REG_CTRLA, Event.st8 NVMCTRL_REG_CTRLA 0,
       Event.st8 NVMCTRL_REG_CTRLA (cmd % 256)]

/-- Footprint of the gen-3/5 flash tail: status reads, the data load, the
`FLPW` commit. -/
theorem flash_v3_tail_shape (o : Oracle) (fuel a : Nat) (d : List Nat) (n : Nat) (s : MState)
    (r : Bool) (s' : MState) (h : write_flash_v3_tail o fuel a d n s = some (r, s')) :
    ∃ w, onlyLd NVMCTRL_V3_REG_STATUS w ∧
      s'.trace = s.trace ++ w ++ loadSeqRsd a d n ++
        [Event.st8 NVMCTRL_REG_CTRLA (NVM_V3_CMD_FLPW % 256)] := by
  unfold write_flash_v3_tail at h
  cases hw : nvm_wait_v3 o fuel s with
  | none => rw [hw] at h; exact absurd h (by simp)
  | some p =>
    rw [hw] at h
    obtain ⟨v1, s1⟩ := p
    obtain ⟨w, hwo, htr, _, _, _, _, _, _, _, _⟩ :=
      nvm_waitR_spec o NVMCTRL_V3_REG_STATUS fuel s v1 s1 (by simpa [nvm_wait_v3] using hw)
    simp only [nvm_ctrl, updi_st8, updi_sts8rsd, Option.some.injEq, Prod.mk.injEq] at h
    obtain ⟨hr, hs⟩ := h
    subst hs
    refine ⟨w, hwo, ?_⟩
    by_cases hn : n = 1 <;> simp [push, htr, loadSeqRsd, hn]

/-- Footprint of the gen-3/5 flash writer on a page boundary: after the
wait, the `0xFF` erase trigger and the `FLPER` erase command are issued
(or the sequence aborts inside them with result `false`) strictly before
the data load and `FLPW` commit. -/
theorem write_flash_v3_shape_bound (o : Oracle) (fuel a : Nat) (d : List Nat) (n : Nat)
    (s : MState) (r : Bool) (s' : MState)
    (h : write_flash_v3 o fuel a d n true s = some (r, s')) :
    ∃ w1, onlyLd NVMCTRL_V3_REG_STATUS w1 ∧
      (s'.trace = s.trace ++ w1 ++ [Event.st8 a (255 % 256)] ∧ r = false
       ∨ s'.trace = s.trace ++ w1 ++ [Event.st8 a (255 % 256),
           Event.st8 NVMCTRL_REG_CTRLA (NVM_V3_CMD_FLPER % 256)] ∧ r = false
       ∨ ∃ w2, onlyLd NVMCTRL_V3_REG_STATUS w2 ∧
           s'.trace = s.trace ++ w1 ++ [Event.st8 a (255 % 256),
             Event.st8 NVMCTRL_REG_CTRLA (NVM_V3_CMD_FLPER % 256)] ++ w2 ++
             loadSeqRsd a d n ++ [Event.st8 NVMCTRL_REG_CTRLA (NVM_V3_CMD_FLPW % 256)]) := by
  unfold write_flash_v3 at h
  cases hw : nvm_wait_v3 o fuel s with
  | none => rw [hw] at h; exact absurd h (by simp)
  | some p =>
    rw [hw] at h
    obtain ⟨v1, s1⟩ := p
    obtain ⟨w1, hwo, htr, _, _, _, _, _, _, _, _⟩ :=
      nvm_waitR_spec o NVMCTRL_V3_REG_STATUS fuel s v1 s1 (by simpa [nvm_wait_v3] using hw)
    refine ⟨w1, hwo, ?_⟩
    simp only [if_true, updi_st8, nvm_ctrl] at h
    by_cases h1 : o.stOk s1.k = false
    · rw [if_pos h1] at h
      simp only [Option.some.injEq, Prod.mk.injEq] at h
      obtain ⟨hr, hs⟩ := h
      subst hs
      exact Or.inl ⟨by simp [push, htr], hr.symm⟩
    · rw [if_neg h1] at h
      by_cases h2 : o.stOk (push (Event.st8 a (255 % 256)) s1).k = false
      · rw [if_pos h2] at h
        simp only [Option.some.injEq, Prod.mk.injEq] at h
        obtain ⟨hr, hs⟩ := h
        subst hs
        exact Or.inr (Or.inl ⟨by simp [push, htr], hr.symm⟩)
      · rw [if_neg h2] at h
        obtain ⟨w2, hw2o, htr2⟩ := flash_v3_tail_shape o fuel a d n _ r s' h
        refine Or.inr (Or.inr ⟨w2, hw2o, ?_⟩)
        rw [htr2]
        simp [push, htr]

/-- Footprint of the gen-3/5 flash writer off the page boundary: only the
`FLPBCLR` page-buffer clear (no erase command, no `0xFF` trigger) precedes
the load and commit. -/
theorem write_flash_v3_shape_unbound (o : Oracle) (fuel a : Nat) (d : List Nat) (n : Nat)
    (s : MState) (r : Bool) (s' : MState)
    (h : write_flash_v3 o fuel a d n false s = some (r, s')) :
    ∃ w1, onlyLd NVMCTRL_V3_REG_STATUS w1 ∧
      (s'.trace = s.trace ++ w1 ++ [Event.st8 NVMCTRL_REG_CTRLA (NVM_V3_CMD_FLPBCLR % 256)] ∧
         r = false
       ∨ ∃ w2, onlyLd NVMCTRL_V3_REG_STATUS w2 ∧
           s'.trace = s.trace ++ w1 ++ [Event.st8 NVMCTRL_REG_CTRLA (NVM_V3_CMD_FLPBCLR % 256)]
             ++ w2 ++ loadSeqRsd a d n ++
             [Event.st8 NVMCTRL_REG_CTRLA (NVM_V3_CMD_FLPW % 256)]) := by
  unfold write_flash_v3 at h
  cases hw : nvm_wait_v3 o fuel s with
  | none => rw [hw] at h; exact absurd h (by simp)
  | some p =>
    rw [hw] at h
    obtain ⟨v1, s1⟩ := p
    obtain ⟨w1, hwo, htr, _, _, _, _, _, _, _, _⟩ :=
      nvm_waitR_spec o NVMCTRL_V3_REG_STATUS fuel s v1 s1 (by simpa [nvm_wait_v3] using hw)
    refine ⟨w1, hwo, ?_⟩
    simp only [Bool.false_eq_true, if_false, updi_st8, nvm_ctrl] at h
    by_cases h1 : o.stOk s1.k = false
    · rw [if_pos h1] at h
      simp only [Option.some.injEq, Prod.mk.injEq] at h
      obtain ⟨hr, hs⟩ := h
      subst hs
      exact Or.inl ⟨by simp [push, htr], hr.symm⟩
    · rw [if_neg h1] at h
      obtain ⟨w2, hw2o, htr2⟩ := flash_v3_tail_shape o fuel a d n _ r s' h
      refine Or.inr ⟨w2, hw2o, ?_⟩
      rw [htr2]
      simp [push, htr]

/-- Footprint of the gen-2/4 flash tail: the `FLWR` arm (a changer shape),
then — unless arming failed — the data load and the `NOCMD` commit. -/
theorem flash_v2_tail_shape (o : Oracle) (fuel a : Nat) (d : List Nat) (n : Nat) (s : MState)
    (r : Bool) (s' : MState) (h : write_flash_v2_tail o fuel a d n s = some (r, s')) :
    ∃ w2 t2, onlyLd NVMCTRL_REG_STATUS w2 ∧ chgShape NVM_V2_CMD_FLWR t2 ∧
      (s'.trace = s.trace ++ w2 ++ t2 ∧ r = false
       ∨ ∃ w3 t3, onlyLd NVMCTRL_REG_STATUS w3 ∧ chgShape NVM_V2_CMD_NOCMD t3 ∧
           s'.trace = s.trace ++ w2 ++ t2 ++ loadSeqV2 a d n ++ w3 ++ t3) := by
  unfold write_flash_v2_tail at h
  cases hc1 : nvm_ctrl_v2 o fuel NVM_V2_CMD_FLWR s with
  | none => rw [hc1] at h; exact absurd h (by simp)
  | some q =>
    rw [hc1] at h
    obtain ⟨r1, s1⟩ := q
    obtain ⟨w2, t2, hw2o, htr1, _, _, _, _, _, hts⟩ :=
      nvm_ctrl_v2_cases o fuel NVM_V2_CMD_FLWR s r1 s1 hc1
    have ht2 : chgShape NVM_V2_CMD_FLWR t2 := by
      rcases hts with ⟨h', _⟩ | h' | h'
      · exact Or.inl h'
      · exact Or.inr (Or.inl h')
      · exact Or.inr (Or.inr h')
    refine ⟨w2, t2, hw2o, ht2, ?_⟩
    cases r1 with
    | false =>
      dsimp only at h
      simp only [Option.some.injEq, Prod.mk.injEq] at h
      obtain ⟨hr, hs⟩ := h
      subst hs
      exact Or.inl ⟨htr1, hr.symm⟩
    | true =>
      dsimp only at h
      simp only [updi_st8, updi_sts8rsd, updi_sts16rsd] at h
      have key : ∀ (e : Event) (sb : MState), sb.trace = s.trace ++ w2 ++ t2 →
          nvm_ctrl_v2 o fuel NVM_V2_CMD_NOCMD (push e sb) = some (r, s') →
          ∃ w3 t3, onlyLd NVMCTRL_REG_STATUS w3 ∧ chgShape NVM_V2_CMD_NOCMD t3 ∧
            s'.trace = s.trace ++ w2 ++ t2 ++ [e] ++ w3 ++ t3 := by
        intro e sb hsb hcall
        obtain ⟨w3, t3, hw3o, htr3, _, _, _, _, _, hts3⟩ :=
          nvm_ctrl_v2_cases o fuel NVM_V2_CMD_NOCMD (push e sb) r s' hcall
        have ht3 : chgShape NVM_V2_CMD_NOCMD t3 := by
          rcases hts3 with ⟨h', _⟩ | h' | h'
          · exact Or.inl h'
          · exact Or.inr (Or.inl h')
          · exact Or.inr (Or.inr h')
        refine ⟨w3, t3, hw3o, ht3, ?_⟩
        rw [htr3]
        simp [push, hsb]
      by_cases hn : n = 1
      · rw [if_pos hn] at h
        obtain ⟨w3, t3, h3o, h3s, h3tr⟩ := key (Event.st8 a (d.headD 0 % 256)) s1 htr1 h
        refine Or.inr ⟨w3, t3, h3o, h3s, ?_⟩
        rw [h3tr]
        simp [loadSeqV2, hn]
      · rw [if_neg hn] at h
        by_cases hd : dec1_shr8 n ≠ 0
        · rw [if_pos hd] at h
          obtain ⟨w3, t3, h3o, h3s, h3tr⟩ :=
            key (Event.sts16rsd a ((d.take n).map (fun x => x % 256))) s1 htr1 h
          refine Or.inr ⟨w3, t3, h3o, h3s, ?_⟩
          rw [h3tr]
          simp [loadSeqV2, hn, hd]
        · rw [if_neg hd] at h
          obtain ⟨w3, t3, h3o, h3s, h3tr⟩ :=
            key (Event.sts8rsd a ((d.take n).map (fun x => x % 256))) s1 htr1 h
          refine Or.inr ⟨w3, t3, h3o, h3s, ?_⟩
          rw [h3tr]
          simp [loadSeqV2, hn, hd]

/-- Footprint of the gen-2/4 flash writer on a page boundary: the `FLPER`
erase command (a changer shape) and the `0xFF` trigger are issued — or the
sequence aborts inside them with result `false` — strictly before the
`FLWR` arm, the data load, and the `NOCMD` commit. -/
theorem write_flash_v2_shape_bound (o : Oracle) (fuel a : Nat) (d : List Nat) (n : Nat)
    (s : MState) (r : Bool) (s' : MState)
    (h : write_flash_v2 o fuel a d n true s = some (r, s')) :
    ∃ w1 t1, onlyLd NVMCTRL_REG_STATUS w1 ∧ chgShape NVM_V2_CMD_FLPER t1 ∧
      (s'.trace = s.trace ++ w1 ++ t1 ∧ r = false
       ∨ s'.trace = s.trace ++ w1 ++ t1 ++ [Event.st8 a (255 % 256)] ∧ r = false
       ∨ ∃ w2 t2, onlyLd NVMCTRL_REG_STATUS w2 ∧ chgShape NVM_V2_CMD_FLWR t2 ∧
           (s'.trace = s.trace ++ w1 ++ t1 ++ [Event.st8 a (255 % 256)] ++ w2 ++ t2 ∧ r = false
            ∨ ∃ w3 t3, onlyLd NVMCTRL_REG_STATUS w3 ∧ chgShape NVM_V2_CMD_NOCMD t3 ∧
                s'.trace = s.trace ++ w1 ++ t1 ++ [Event.st8 a (255 % 256)] ++ w2 ++ t2 ++
                  loadSeqV2 a d n ++ w3 ++ t3)) := by
  unfold write_flash_v2 at h
  rw [if_pos rfl] at h
  cases hc1 : nvm_ctrl_v2 o fuel NVM_V2_CMD_FLPER s with
  | none => rw [hc1] at h; exact absurd h (by simp)
  | some q =>
    rw [hc1] at h
    obtain ⟨r1, s1⟩ := q
    obtain ⟨w1, t1, hw1o, htr1, _, _, _, _, _, hts⟩ :=
      nvm_ctrl_v2_cases o fuel NVM_V2_CMD_FLPER s r1 s1 hc1
    have ht1 : chgShape NVM_V2_CMD_FLPER t1 := by
      rcases hts with ⟨h', _⟩ | h' | h'
      · exact Or.inl h'
      · exact Or.inr (Or.inl h')
      · exact Or.inr (Or.inr h')
    refine ⟨w1, t1, hw1o, ht1, ?_⟩
    cases r1 with
    | false =>
      dsimp only at h
      simp only [Option.some.injEq, Prod.mk.injEq] at h
      obtain ⟨hr, hs⟩ := h
      subst hs
      exact Or.inl ⟨htr1, hr.symm⟩
    | true =>
      dsimp only at h
      simp only [updi_st8] at h
      by_cases h1 : o.stOk s1.k = false
      · rw [if_pos h1] at h
        simp only [Option.some.injEq, Prod.mk.injEq] at h
        obtain ⟨hr, hs⟩ := h
        subst hs
        exact Or.inr (Or.inl ⟨by simp [push, htr1], hr.symm⟩)
      · rw [if_neg h1] at h
        obtain ⟨w2, t2, hw2o, ht2, hrest⟩ := flash_v2_tail_shape o fuel a d n _ r s' h
        refine Or.inr (Or.inr ⟨w2, t2, hw2o, ht2, ?_⟩)
        rcases hrest with ⟨htr2, hrf⟩ | ⟨w3, t3, h3o, h3s, htr3⟩
        · exact Or.inl ⟨by rw [htr2]; simp [push, htr1], hrf⟩
        · exact Or.inr ⟨w3, t3, h3o, h3s, by rw [htr3]; simp [push, htr1]⟩

/-- Footprint of the gen-2/4 flash writer off the page boundary: no erase
command and no `0xFF` trigger — only the `FLWR` arm, the load, and the
`NOCMD` commit. -/
theorem write_flash_v2_shape_unbound (o : Oracle) (fuel a : Nat) (d : List Nat) (n : Nat)
    (s : MState) (r : Bool) (s' : MState)
    (h : write_flash_v2 o fuel a d n false s = some (r, s')) :
    ∃ w2 t2, onlyLd NVMCTRL_REG_STATUS w2 ∧ chgShape NVM_V2_CMD_FLWR t2 ∧
      (s'.trace = s.trace ++ w2 ++ t2 ∧ r = false
       ∨ ∃ w3 t3, onlyLd NVMCTRL_REG_STATUS w3 ∧ chgShape NVM_V2_CMD_NOCMD t3 ∧
           s'.trace = s.trace ++ w2 ++ t2 ++ loadSeqV2 a d n ++ w3 ++ t3) := by
  unfold write_flash_v2 at h
  simp only [Bool.false_eq_true, if_false] at h
  exact flash_v2_tail_shape o fuel a d n s r s' h

/-- Footprint of the gen-0 flash tail: status reads, the data load, the
`ERWP` commit. -/
theorem flash_v0_tail_shape (o : Oracle) (fuel a : Nat) (d : List Nat) (n : Nat) (s : MState)
    (r : Bool) (s' : MState) (h : write_flash_v0_tail o fuel a d n s = some (r, s')) :
    ∃ w, onlyLd NVMCTRL_REG_STATUS w ∧
      s'.trace = s.trace ++ w ++ loadSeqRsd a d n ++
        [Event.st8 NVMCTRL_REG_CTRLA (NVM_CMD_ERWP % 256)] := by
  unfold write_flash_v0_tail at h
  cases hw : nvm_wait o fuel s with
  | none => rw [hw] at h; exact absurd h (by simp)
  | some p =>
    rw [hw] at h
    obtain ⟨v1, s1⟩ := p
    obtain ⟨w, hwo, htr, _, _, _, _, _, _, _, _⟩ :=
      nvm_waitR_spec o NVMCTRL_REG_STATUS fuel s v1 s1 (by simpa [nvm_wait] using hw)
    simp only [nvm_ctrl, updi_st8, updi_sts8rsd, Option.some.injEq, Prod.mk.injEq] at h
    obtain ⟨hr, hs⟩ := h
    subst hs
    refine ⟨w, hwo, ?_⟩
    by_cases hn : n = 1 <;> simp [push, htr, loadSeqRsd, hn]

/-- Footprint of the gen-0 flash writer on a page boundary: the `PBC`
page-buffer clear is issued (or its store fails with result `false`)
strictly before the data load and `ERWP` commit. -/
theorem write_flash_v0_shape_bound (o : Oracle) (fuel a : Nat) (d : List Nat) (n : Nat)
    (s : MState) (r : Bool) (s' : MState)
    (h : write_flash_v0 o fuel a d n true s = some (r, s')) :
    ∃ w1, onlyLd NVMCTRL_REG_STATUS w1 ∧
      (s'.trace = s.trace ++ w1 ++ [Event.st8 NVMCTRL_REG_CTRLA (NVM_CMD_PBC % 256)] ∧ r = false
       ∨ ∃ w2, onlyLd NVMCTRL_REG_STATUS w2 ∧
           s'.trace = s.trace ++ w1 ++ [Event.st8 NVMCTRL_REG_CTRLA (NVM_CMD_PBC % 256)] ++ w2 ++
             loadSeqRsd a d n ++ [Event.st8 NVMCTRL_REG_CTRLA (NVM_CMD_ERWP % 256)]) := by
  unfold write_flash_v0 at h
  rw [if_pos rfl] at h
  cases hw : nvm_wait o fuel s with
  | none => rw [hw] at h; exact absurd h (by simp)
  | some p =>
    rw [hw] at h
    obtain ⟨v1, s1⟩ := p
    obtain ⟨w1, hwo, htr, _, _, _, _, _, _, _, _⟩ :=
      nvm_waitR_spec o NVMCTRL_REG_STATUS fuel s v1 s1 (by simpa [nvm_wait] using hw)
    refine ⟨w1, hwo, ?_⟩
    simp only [nvm_ctrl, updi_st8] at h
    by_cases h1 : o.stOk s1.k = false
    · rw [if_pos h1] at h
      simp only [Option.some.injEq, Prod.mk.injEq] at h
      obtain ⟨hr, hs⟩ := h
      subst hs
      exact Or.inl ⟨by simp [push, htr], hr.symm⟩
    · rw [if_neg h1] at h
      obtain ⟨w2, hw2o, htr2⟩ := flash_v0_tail_shape o fuel a d n _ r s' h
      refine Or.inr ⟨w2, hw2o, ?_⟩
      rw [htr2]
      simp [push, htr]

/-- Footprint of the gen-0 flash writer off the page boundary: no `PBC`
and no erase — only the wait, the data load, and the `ERWP` commit. -/
theorem write_flash_v0_shape_unbound (o : Oracle) (fuel a : Nat) (d : List Nat) (n : Nat)
    (s : MState) (r : Bool) (s' : MState)
    (h : write_flash_v0 o fuel a d n false s = some (r, s')) :
    ∃ w, onlyLd NVMCTRL_REG_STATUS w ∧
      s'.trace = s.trace ++ w ++ loadSeqRsd a d n ++
        [Event.st8 NVMCTRL_REG_CTRLA (NVM_CMD_ERWP % 256)] := by
  unfold write_flash_v0 at h
  simp only [Bool.false_eq_true, if_false] at h
  exact flash_v0_tail_shape o fuel a d n s r s' h

/-- C1: for each terminating run of the three flash writers (`some` result;
the fuel only bounds the untimed busy-waits), with `is_page_boundary = true`
the erase sub-sequence — `PBC` for Gen0; `FLPER` plus the `0xFF` trigger
store for Gen2/4 and Gen3/5 (the `FLPER` store may be elided by the
idempotent command changer when the control register already reads it) —
appears in the trace strictly before the data-load transaction, which
occurs only in the final disjunct after the erase chunk; with
`is_page_boundary = false` the trace shape contains no erase command and no
trigger: Gen0 goes straight to the load, Gen3/5 issues only the `FLPBCLR`
buffer clear, Gen2/4 only the `FLWR` arm. -/
theorem C1_flash_erase_before_load (o : Oracle) (fuel a : Nat) (d : List Nat) (n : Nat)
    (s : MState) :
    onSome (fun r s' => ∃ w1, onlyLd NVMCTRL_V3_REG_STATUS w1 ∧
      (s'.trace = s.trace ++ w1 ++ [Event.st8 a (255 % 256)] ∧ r = false
       ∨ s'.trace = s.trace ++ w1 ++ [Event.st8 a (255 % 256),
           Event.st8 NVMCTRL_REG_CTRLA (NVM_V3_CMD_FLPER % 256)] ∧ r = false
       ∨ ∃ w2, onlyLd NVMCTRL_V3_REG_STATUS w2 ∧
           s'.trace = s.trace ++ w1 ++ [Event.st8 a (255 % 256),
             Event.st8 NVMCTRL_REG_CTRLA (NVM_V3_CMD_FLPER % 256)] ++ w2 ++
             loadSeqRsd a d n ++ [Event.st8 NVMCTRL_REG_CTRLA (NVM_V3_CMD_FLPW % 256)]))
      (write_flash_v3 o fuel a d n true s) ∧
    onSome (fun r s' => ∃ w1, onlyLd NVMCTRL_V3_REG_STATUS w1 ∧
      (s'.trace = s.trace ++ w1 ++ [Event.st8 NVMCTRL_REG_CTRLA (NVM_V3_CMD_FLPBCLR % 256)] ∧
         r = false
       ∨ ∃ w2, onlyLd NVMCTRL_V3_REG_STATUS w2 ∧
           s'.trace = s.trace ++ w1 ++ [Event.st8 NVMCTRL_REG_CTRLA (NVM_V3_CMD_FLPBCLR % 256)]
             ++ w2 ++ loadSeqRsd a d n ++
             [Event.st8 NVMCTRL_REG_CTRLA (NVM_V3_CMD_FLPW % 256)]))
      (write_flash_v3 o fuel a d n false s) ∧
    onSome (fun r s' => ∃ w1 t1, onlyLd NVMCTRL_REG_STATUS w1 ∧ chgShape NVM_V2_CMD_FLPER t1 ∧
      (s'.trace = s.trace ++ w1 ++ t1 ∧ r = false
       ∨ s'.trace = s.trace ++ w1 ++ t1 ++ [Event.st8 a (255 % 256)] ∧ r = false
       ∨ ∃ w2 t2, onlyLd NVMCTRL_REG_STATUS w2 ∧ chgShape NVM_V2_CMD_FLWR t2 ∧
           (s'.trace = s.trace ++ w1 ++ t1 ++ [Event.st8 a (255 % 256)] ++ w2 ++ t2 ∧ r = false
            ∨ ∃ w3 t3, onlyLd NVMCTRL_REG_STATUS w3 ∧ chgShape NVM_V2_CMD_NOCMD t3 ∧
                s'.trace = s.trace ++ w1 ++ t1 ++ [Event.st8 a (255 % 256)] ++ w2 ++ t2 ++
                  loadSeqV2 a d n ++ w3 ++ t3)))
      (write_flash_v2 o fuel a d n true s) ∧
    onSome (fun r s' => ∃ w2 t2, onlyLd NVMCTRL_REG_STATUS w2 ∧ chgShape NVM_V2_CMD_FLWR t2 ∧
      (s'.trace = s.trace ++ w2 ++ t2 ∧ r = false
       ∨ ∃ w3 t3, onlyLd NVMCTRL_REG_STATUS w3 ∧ chgShape NVM_V2_CMD_NOCMD t3 ∧
           s'.trace = s.trace ++ w2 ++ t2 ++ loadSeqV2 a d n ++ w3 ++ t3))
      (write_flash_v2 o fuel a d n false s) ∧
    onSome (fun r s' => ∃ w1, onlyLd NVMCTRL_REG_STATUS w1 ∧
      (s'.trace = s.trace ++ w1 ++ [Event.st8 NVMCTRL_REG_CTRLA (NVM_CMD_PBC % 256)] ∧ r = false
       ∨ ∃ w2, onlyLd NVMCTRL_REG_STATUS w2 ∧
           s'.trace = s.trace ++ w1 ++ [Event.st8 NVMCTRL_REG_CTRLA (NVM_CMD_PBC % 256)] ++ w2 ++
             loadSeqRsd a d n ++ [Event.st8 NVMCTRL_REG_CTRLA (NVM_CMD_ERWP % 256)]))
      (write_flash_v0 o fuel a d n true s) ∧
    onSome (fun r s' => ∃ w, onlyLd NVMCTRL_REG_STATUS w ∧
      s'.trace = s.trace ++ w ++ loadSeqRsd a d n ++
        [Event.st8 NVMCTRL_REG_CTRLA (NVM_CMD_ERWP % 256)])
      (write_flash_v0 o fuel a d n false s) := by
  refine ⟨?_, ?_, ?_, ?_, ?_, ?_⟩
  · cases hx : write_flash_v3 o fuel a d n true s with
    | none => trivial
    | some p => exact write_flash_v3_shape_bound o fuel a d n s p.1 p.2 hx
  · cases hx : write_flash_v3 o fuel a d n false s with
    | none => trivial
    | some p => exact write_flash_v3_shape_unbound o fuel a d n s p.1 p.2 hx
  · cases hx : write_flash_v2 o fuel a d n true s with
    | none => trivial
    | some p => exact write_flash_v2_shape_bound o fuel a d n s p.1 p.2 hx
  · cases hx : write_flash_v2 o fuel a d n false s with
    | none => trivial
    | some p => exact write_flash_v2_shape_unbound o fuel a d n s p.1 p.2 hx
  · cases hx : write_flash_v0 o fuel a d n true s with
    | none => trivial
    | some p => exact write_flash_v0_shape_bound o fuel a d n s p.1 p.2 hx
  · cases hx : write_flash_v0 o fuel a d n false s with
    | none => trivial
    | some p => exact write_flash_v0_shape_unbound o fuel a d n s p.1 p.2 hx

/-- Sanity: the flash writers and the fuse writer do terminate (produce
`some`) on a concrete oracle with idle status and succeeding stores, so the
`onSome` conclusions above are not vacuous. -/
theorem flash_writers_terminate_example :
    (write_flash_v3 oracle0 1 32768 [1, 2] 2 true st0).isSome = true ∧
    (write_flash_v3 oracle0 1 32768 [1, 2] 2 false st0).isSome = true ∧
    (write_flash_v2 oracle0 1 32768 [1, 2] 2 true st0).isSome = true ∧
    (write_flash_v2 oracle0 1 32768 [1, 2] 2 false st0).isSome = true ∧
    (write_flash_v0 oracle0 1 32768 [1, 2] 2 true st0).isSome = true ∧
    (write_flash_v0 oracle0 1 32768 [1, 2] 2 false st0).isSome = true ∧
    (write_fuse oracle0 1 100 85 st0).isSome = true := by
  decide

/-- Final state of the concrete fuse write used as the C7 witness. -/
def stW7 : MState :=
  { trace := [Event.ld8 4098, Event.sts8 4102 [85, 0, 100, 0], Event.st8 4096 7, Event.ld8 4098],
    k := 4, resp := 0, msgid := 0, size_word := 0, out := [], desc := desc0 }

/-- Witness for C7: a concrete fuse write of byte `85` at address `100`
terminates with result `true` and the packed-store/WFU/wait footprint. -/
theorem C7_witness :
    ∃ w1, onlyLd NVMCTRL_REG_STATUS w1 ∧
      ((oracle0.stOk (st0.k + w1.length) = false ∧ true = false ∧
         stW7.trace = st0.trace ++ w1 ++
           [Event.sts8 NVMCTRL_REG_DATA ((fuse_packet 100 85).map (fun x => x % 256))])
       ∨ (oracle0.stOk (st0.k + w1.length) = true ∧
          oracle0.stOk (st0.k + w1.length + 1) = false ∧ true = false ∧
         stW7.trace = st0.trace ++ w1 ++
           [Event.sts8 NVMCTRL_REG_DATA ((fuse_packet 100 85).map (fun x => x % 256)),
            Event.st8 NVMCTRL_REG_CTRLA (NVM_CMD_WFU % 256)])
       ∨ (oracle0.stOk (st0.k + w1.length) = true ∧
          oracle0.stOk (st0.k + w1.length + 1) = true ∧
         ∃ w2, onlyLd NVMCTRL_REG_STATUS w2 ∧ w2 ≠ [] ∧
           oracle0.ldVal (st0.k + w1.length + 2 + (w2.length - 1))
             NVMCTRL_REG_STATUS % 256 % 4 = 0 ∧
           true = decide (oracle0.ldVal (st0.k + w1.length + 2 + (w2.length - 1))
             NVMCTRL_REG_STATUS % 256 % 8 = 0) ∧
           stW7.trace = st0.trace ++ w1 ++
             [Event.sts8 NVMCTRL_REG_DATA ((fuse_packet 100 85).map (fun x => x % 256)),
              Event.st8 NVMCTRL_REG_CTRLA (NVM_CMD_WFU % 256)] ++ w2)) :=
  C7_write_fuse_sequence oracle0 1 100 85 st0 true stW7 (by decide)
